import Mathlib

/-!
Verification development for the symbolic-evaluation engine of the
multivariable-calculus calculator (src/CALCULO/calculadora.py).

The engine's Python functions (resolver_integral_triple, aplicar_green,
_verificar_green, aplicar_divergencia, aplicar_stokes and the polygon
validation of DialogoEntrada.aceptar) are shallowly embedded as pure Lean
functions.  sympy, the external computer-algebra library the code drives,
is modelled by a small executable CAS over an expression tree: symbolic
differentiation, substitution, a normal-form simplifier, and a definite
integrator for the fragment of integrands the engine produces (polynomials
in the integration variable and sin/cos powers over a full period);
integrals outside the fragment are kept as unevaluated integral nodes,
mirroring sympy returning an Integral object.  sympy's automatic
evaluation at construction time (numeric folding, sin/cos/tan at multiples
of pi/2, complex infinity zoo from division by zero, Float contagion with
IEEE-754 double rounding) is modelled by smart constructors.

All definitions are computable so each concrete claim evaluates by kernel
reduction.  Rationals are re-implemented (type Q below) because Mathlib's
Rat normalization is not kernel-reducible.
-/

/-- Fuel-driven Euclidean gcd; fuel b+1 always suffices. -/
def gcdF : Nat → Nat → Nat → Nat
| 0, a, _ => a
| fuel + 1, a, b => if b = 0 then a else gcdF fuel b (a % b)

/-- Kernel-reducible gcd on naturals. -/
def natGcd (a b : Nat) : Nat := gcdF (b + 1) a b

/-- Fuel-driven floor of log base 2. -/
def log2f : Nat → Nat → Nat
| 0, _ => 0
| fuel + 1, n => if n ≤ 1 then 0 else log2f fuel (n / 2) + 1

/-- Kernel-reducible rational numbers: numerator, positive denominator,
reduced by construction via natGcd. -/
structure Q where
  n : Int
  d : Nat
deriving DecidableEq, Repr

/-- Build a reduced rational from an integer numerator and denominator. -/
def Q.mk' (a b : Int) : Q :=
  if b = 0 then ⟨0, 1⟩
  else
    let s : Int := if b < 0 then -1 else 1
    let a' := s * a
    let b' := (s * b).toNat
    let g := natGcd a'.natAbs b'
    if g = 0 then ⟨0, 1⟩ else ⟨a' / (g : Int), b' / g⟩

def Q.ofInt (a : Int) : Q := ⟨a, 1⟩

def Q.zero : Q := ⟨0, 1⟩

def Q.one : Q := ⟨1, 1⟩

def Q.add (a b : Q) : Q := Q.mk' (a.n * (b.d : Int) + b.n * (a.d : Int)) ((a.d : Int) * (b.d : Int))

def Q.mul (a b : Q) : Q := Q.mk' (a.n * b.n) ((a.d : Int) * (b.d : Int))

def Q.neg (a : Q) : Q := ⟨-a.n, a.d⟩

def Q.sub (a b : Q) : Q := a.add b.neg

def Q.inv (a : Q) : Q :=
  if a.n = 0 then ⟨0, 1⟩
  else if a.n < 0 then ⟨-(a.d : Int), a.n.natAbs⟩ else ⟨(a.d : Int), a.n.natAbs⟩

def Q.powNat (a : Q) : Nat → Q
| 0 => Q.one
| k + 1 => (a.powNat k).mul a

def Q.powInt (a : Q) (k : Int) : Q :=
  if 0 ≤ k then a.powNat k.toNat else (a.inv).powNat (-k).toNat

def Q.blt (a b : Q) : Bool := a.n * (b.d : Int) < b.n * (a.d : Int)

def Q.ble (a b : Q) : Bool := decide (a.n * (b.d : Int) ≤ b.n * (a.d : Int))

def Q.isZero (a : Q) : Bool := a.n = 0

def Q.floor (a : Q) : Int := a.n.fdiv (a.d : Int)

/-- Fractional part in [0,1). -/
def Q.fract (a : Q) : Q := a.sub (Q.ofInt a.floor)

/-- a modulo 2 (for reducing angles q*pi). -/
def Q.mod2 (a : Q) : Q :=
  a.sub ((Q.ofInt 2).mul (Q.ofInt ((a.mul (Q.mk' 1 2)).floor)))

/-- a modulo 1. -/
def Q.mod1 (a : Q) : Q := a.fract

/-- Power of two as a rational, with integer exponent. -/
def qPow2 (e : Int) : Q := (Q.ofInt 2).powInt e

/-- Floor of log base 2 of a positive rational. -/
def qIlog2 (q : Q) : Int :=
  let e0 : Int := (log2f 256 q.n.natAbs : Int) - (log2f 256 q.d : Int)
  if q.blt (qPow2 e0) then e0 - 1 else e0

/-- Round to nearest integer, ties to even. -/
def rne (m : Q) : Int :=
  let f := m.floor
  let r := m.sub (Q.ofInt f)
  if r.blt (Q.mk' 1 2) then f
  else if (Q.mk' 1 2).blt r then f + 1
  else if f % 2 = 0 then f else f + 1

/-- Round a positive rational to 53 significant bits (IEEE-754 binary64
round-to-nearest, ties to even), modelling mpmath/sympy Float arithmetic
at default precision. -/
def round53Pos (q : Q) : Q :=
  let e := qIlog2 q
  let sh := e - 52
  let m := q.mul (qPow2 (-sh))
  (Q.ofInt (rne m)).mul (qPow2 sh)

/-- Round any rational to 53 significant bits. -/
def round53 (q : Q) : Q :=
  if q.n = 0 then Q.zero
  else if q.n < 0 then (round53Pos q.neg).neg
  else round53Pos q

/-- The IEEE-754 double produced by the Python float division 4/3. -/
def fl43 : Q := round53 (Q.mk' 4 3)

/-! String utilities over the character list, chosen to be
kernel-reducible (core String library functions are not). -/

/-- Lower-case one ASCII character (models str.lower on the inputs used). -/
def lowerChar (c : Char) : Char :=
  if 65 ≤ c.toNat ∧ c.toNat ≤ 90 then Char.ofNat (c.toNat + 32) else c

/-- Model of Python s.replace(" ", "").lower(). -/
def limpiar (s : String) : List Char :=
  (s.data.filter (fun c => !(c == ' '))).map lowerChar

/-- Substring containment on character lists (Python `in`). -/
def containsSub : List Char → List Char → Bool
| [], nee => nee.isEmpty
| hay@(_ :: t), nee => nee.isPrefixOf hay || containsSub t nee

/-- Python str.startswith with a tuple of options. -/
def startsWithAny (s : List Char) (opts : List (List Char)) : Bool :=
  opts.any (fun o => o.isPrefixOf s)

/-- Digits of a character list as a natural number (none if a
non-digit occurs or the list is empty). -/
def digitsToNat : List Char → Option Nat
| [] => none
| cs =>
  cs.foldl
    (fun acc c =>
      match acc with
      | none => none
      | some a => if c.isDigit then some (a * 10 + (c.toNat - 48)) else none)
    (some 0)

/-- Model of Python int(stringValue) for the simple integer strings the
dialogs pass: optional sign, then digits; anything else raises. -/
def pyInt? (s : String) : Option Int :=
  match s.data with
  | '-' :: rest => (digitsToNat rest).map (fun k => -(k : Int))
  | '+' :: rest => (digitsToNat rest).map (fun k => (k : Int))
  | cs => (digitsToNat cs).map (fun k => (k : Int))

/-! The symbolic expression tree modelling sympy expressions over the
fragment the engine uses: rationals (exact Integer/Rational numbers),
inexact Float numbers, symbols, pi, complex infinity zoo and nan,
arithmetic, integer powers, sqrt, trigonometric functions, and an
unevaluated definite-integral node. -/

inductive Expr where
| const : Q → Expr
| fconst : Q → Expr
| sym : String → Expr
| piE : Expr
| zooE : Expr
| nanE : Expr
| add : Expr → Expr → Expr
| mul : Expr → Expr → Expr
| pow : Expr → Int → Expr
| sqrtE : Expr → Expr
| sinE : Expr → Expr
| cosE : Expr → Expr
| tanE : Expr → Expr
| integralU : Expr → String → Expr → Expr → Expr
deriving DecidableEq, Repr

/-- Integer constant expression. -/
def ci (k : Int) : Expr := Expr.const (Q.ofInt k)

/-- Comparison of character lists. -/
def cmpChars : List Char → List Char → Ordering
| [], [] => .eq
| [], _ :: _ => .lt
| _ :: _, [] => .gt
| a :: as, b :: bs =>
  (compare a.toNat b.toNat).then (cmpChars as bs)

def cmpStr (a b : String) : Ordering := cmpChars a.data b.data

def cmpInt (a b : Int) : Ordering := compare a b

def cmpQ (a b : Q) : Ordering := (cmpInt a.n b.n).then (compare a.d b.d)

/-- Index of the head constructor, for the total order on expressions. -/
def exprTag : Expr → Nat
| .const _ => 0
| .fconst _ => 1
| .sym _ => 2
| .piE => 3
| .zooE => 4
| .nanE => 5
| .add _ _ => 6
| .mul _ _ => 7
| .pow _ _ => 8
| .sqrtE _ => 9
| .sinE _ => 10
| .cosE _ => 11
| .tanE _ => 12
| .integralU _ _ _ _ => 13

/-- A total structural order on expressions, used only to sort the
normal form canonically. -/
def cmpE : Expr → Expr → Ordering
| .const a, .const b => cmpQ a b
| .fconst a, .fconst b => cmpQ a b
| .sym a, .sym b => cmpStr a b
| .add a b, .add c d => (cmpE a c).then (cmpE b d)
| .mul a b, .mul c d => (cmpE a c).then (cmpE b d)
| .pow a m, .pow b k => (cmpE a b).then (cmpInt m k)
| .sqrtE a, .sqrtE b => cmpE a b
| .sinE a, .sinE b => cmpE a b
| .cosE a, .cosE b => cmpE a b
| .tanE a, .tanE b => cmpE a b
| .integralU a v l h, .integralU b w l' h' =>
  ((cmpE a b).then (cmpStr v w)).then ((cmpE l l').then (cmpE h h'))
| a, b => compare (exprTag a) (exprTag b)

/-- Does the symbol v occur (free) in the expression? -/
def occursSym (v : String) : Expr → Bool
| .const _ | .fconst _ | .piE | .zooE | .nanE => false
| .sym w => w = v
| .add a b | .mul a b => occursSym v a || occursSym v b
| .pow a _ | .sqrtE a | .sinE a | .cosE a | .tanE a => occursSym v a
| .integralU e w lo hi =>
  (decide (w ≠ v) && occursSym v e) || occursSym v lo || occursSym v hi

/-- Does any free symbol occur? (pi and numbers are not symbols). -/
def hasAnySym : Expr → Bool
| .const _ | .fconst _ | .piE | .zooE | .nanE => false
| .sym _ => true
| .add a b | .mul a b => hasAnySym a || hasAnySym b
| .pow a _ | .sqrtE a | .sinE a | .cosE a | .tanE a => hasAnySym a
| .integralU e _ lo hi => hasAnySym e || hasAnySym lo || hasAnySym hi

/-- Does zoo, nan or an unevaluated integral occur (these make
float(sp.N(...)) fail)? -/
def hasNonNumeric : Expr → Bool
| .const _ | .fconst _ | .piE => false
| .sym _ => true
| .zooE | .nanE => true
| .add a b | .mul a b => hasNonNumeric a || hasNonNumeric b
| .pow a _ | .sqrtE a | .sinE a | .cosE a | .tanE a => hasNonNumeric a
| .integralU _ _ _ _ => true

/-- Simultaneous substitution of expressions for symbols, modelling
sympy subs with a symbol-keyed dictionary. -/
def subsE (m : List (String × Expr)) : Expr → Expr
| .sym w =>
  match m.find? (fun p => p.fst = w) with
  | some p => p.snd
  | none => .sym w
| .add a b => .add (subsE m a) (subsE m b)
| .mul a b => .mul (subsE m a) (subsE m b)
| .pow a k => .pow (subsE m a) k
| .sqrtE a => .sqrtE (subsE m a)
| .sinE a => .sinE (subsE m a)
| .cosE a => .cosE (subsE m a)
| .tanE a => .tanE (subsE m a)
| .integralU e v lo hi => .integralU (subsE m e) v (subsE m lo) (subsE m hi)
| e => e

/-! Polynomial normal form: a sum of monomials, each a reduced rational
coefficient times a sorted product of atom powers.  Atoms are the
non-polynomial building blocks (symbols, pi, trig applications, square
roots, inverses of non-monomial expressions, unevaluated integrals). -/

/-- One monomial key: atoms with nonzero integer exponents, sorted by cmpE. -/
abbrev Mono := List (Expr × Int)

/-- Normal form: monomials with nonzero coefficients, sorted by key. -/
abbrev NF := List (Q × Mono)

def cmpMonoKey : Mono → Mono → Ordering
| [], [] => .eq
| [], _ :: _ => .lt
| _ :: _, [] => .gt
| (a, i) :: as, (b, j) :: bs =>
  ((cmpE a b).then (cmpInt i j)).then (cmpMonoKey as bs)

/-- Insert an atom power into a sorted monomial, merging exponents. -/
def monoInsert (a : Expr) (k : Int) : Mono → Mono
| [] => if k = 0 then [] else [(a, k)]
| (b, j) :: rest =>
  match cmpE a b with
  | .lt => if k = 0 then (b, j) :: rest else (a, k) :: (b, j) :: rest
  | .eq => if k + j = 0 then rest else (a, k + j) :: rest
  | .gt => (b, j) :: monoInsert a k rest

def monoMul (m1 m2 : Mono) : Mono :=
  m1.foldl (fun acc p => monoInsert p.fst p.snd acc) m2

def monoPowNat (m : Mono) (k : Nat) : Mono :=
  m.map (fun p => (p.fst, p.snd * (k : Int)))

def monoInv (m : Mono) : Mono := m.map (fun p => (p.fst, -p.snd))

/-- Add one coefficient-monomial pair into a sorted polynomial. -/
def polyInsert (q : Q) (m : Mono) : NF → NF
| [] => if q.isZero then [] else [(q, m)]
| (c, m') :: rest =>
  match cmpMonoKey m m' with
  | .lt => if q.isZero then (c, m') :: rest else (q, m) :: (c, m') :: rest
  | .eq =>
    let s := q.add c
    if s.isZero then rest else (s, m') :: rest
  | .gt => (c, m') :: polyInsert q m rest

def pAdd (p1 p2 : NF) : NF :=
  p1.foldl (fun acc t => polyInsert t.fst t.snd acc) p2

def pZero : NF := []

def pConst (q : Q) : NF := if q.isZero then [] else [(q, [])]

def pAtom (a : Expr) : NF := [(Q.one, [(a, 1)])]

def pScale (q : Q) (m : Mono) (p : NF) : NF :=
  p.foldl (fun acc t => polyInsert (t.fst.mul q) (monoMul t.snd m) acc) pZero

def pMul (p1 p2 : NF) : NF :=
  p1.foldl (fun acc t => pAdd (pScale t.fst t.snd p2) acc) pZero

def pNeg (p : NF) : NF := p.map (fun t => (t.fst.neg, t.snd))

def pSub (p1 p2 : NF) : NF := pAdd p1 (pNeg p2)

def pPowNat (p : NF) : Nat → NF
| 0 => pConst Q.one
| k + 1 => pMul (pPowNat p k) p

/-- Rebuild a monomial as a right-nested product of atom powers. -/
def monoToExpr : Mono → Option Expr
| [] => none
| [(a, 1)] => some a
| [(a, k)] => some (.pow a k)
| (a, k) :: rest =>
  match monoToExpr rest with
  | some e => some (.mul (if k = 1 then a else .pow a k) e)
  | none => none

/-- Rebuild one term. -/
def termToExpr (q : Q) (m : Mono) : Expr :=
  match monoToExpr m with
  | none => .const q
  | some e => if q = Q.one then e else .mul (.const q) e

/-- Rebuild a canonical expression from the normal form. -/
def polyToExpr : NF → Expr
| [] => ci 0
| [(q, m)] => termToExpr q m
| (q, m) :: rest => .add (termToExpr q m) (polyToExpr rest)

/-- Exponent scaling for a monomial by an integer (for negative powers). -/
def monoPowK (m : Mono) (k : Int) : Mono := m.map (fun p => (p.fst, p.snd * k))

/-- Normalize an expression into the polynomial normal form.  Models the
algebraic core of sp.simplify on the rational-arithmetic fragment:
expansion, collection of like terms, cancellation.  Float numbers are
identified with their exact rational value (sympy's == also equates
Float(4.0) with Integer(4)).  Trig/sqrt/integral nodes are opaque atoms
with recursively normalized arguments. -/
def toNF : Expr → NF
| .const q => pConst q
| .fconst q => pConst q
| .sym s => pAtom (.sym s)
| .piE => pAtom .piE
| .zooE => pAtom .zooE
| .nanE => pAtom .nanE
| .add a b => pAdd (toNF a) (toNF b)
| .mul a b => pMul (toNF a) (toNF b)
| .pow a k =>
  let p := toNF a
  if 0 ≤ k then pPowNat p k.toNat
  else
    match p with
    | [] => pAtom (.pow (ci 0) k)
    | [(q, m)] => [(q.powInt k, monoPowK m k)]
    | p' => pAtom (.pow (polyToExpr p') k)
| .sqrtE a => pAtom (.sqrtE (polyToExpr (toNF a)))
| .sinE a => pAtom (.sinE (polyToExpr (toNF a)))
| .cosE a => pAtom (.cosE (polyToExpr (toNF a)))
| .tanE a => pAtom (.tanE (polyToExpr (toNF a)))
| .integralU e v lo hi =>
  pAtom (.integralU (polyToExpr (toNF e)) v (polyToExpr (toNF lo)) (polyToExpr (toNF hi)))

/-- Model of sp.simplify on the engine's fragment. -/
def simplifyE (e : Expr) : Expr := polyToExpr (toNF e)

/-- Mathematical equality of two modelled sympy values (equal normal
forms); used to state that a returned slot equals a claimed value. -/
def normEq (a b : Expr) : Bool := toNF a = toNF b

/-- Model of expr.is_constant() for the simplified expressions the engine
tests: no free symbol occurs. -/
def isConstantE (e : Expr) : Bool := !hasAnySym e

/-! Smart constructors modelling sympy automatic evaluation at
construction time (Add.flatten / Mul.flatten / Pow eval / trig eval):
numeric subterms are folded (with IEEE-754 rounding when a Float is
involved), zero and one are absorbed, zoo and nan propagate, and
sin/cos/tan evaluate at the multiples of pi/2 the engine produces. -/

def addTerms : Expr → List Expr
| .add a b => addTerms a ++ addTerms b
| e => [e]

def mulFactors : Expr → List Expr
| .mul a b => mulFactors a ++ mulFactors b
| e => [e]

def listToAdd : List Expr → Expr
| [] => ci 0
| [e] => e
| e :: rest => .add e (listToAdd rest)

def listToMul : List Expr → Expr
| [] => ci 1
| [e] => e
| e :: rest => .mul e (listToMul rest)

/-- Numeric value of an atom if it is an exact or Float number. -/
def numVal? : Expr → Option (Q × Bool)
| .const q => some (q, false)
| .fconst q => some (q, true)
| _ => none

/-- Fold two numbers; a Float operand makes the result a Float rounded
to 53 bits (mpmath default precision). -/
def foldNum (op : Q → Q → Q) (a b : Q × Bool) : Q × Bool :=
  let v := op a.fst b.fst
  if a.snd || b.snd then (round53 v, true) else (v, false)

def sAdd (a b : Expr) : Expr :=
  let ts := addTerms a ++ addTerms b
  if ts.any (· = Expr.nanE) then .nanE
  else if 2 ≤ (ts.filter (· = Expr.zooE)).length then .nanE
  else
    let nums := ts.filterMap numVal?
    let rest := ts.filter (fun e => (numVal? e).isNone && e ≠ .zooE)
    let hasZoo := ts.any (· = Expr.zooE)
    if hasZoo then
      if rest.isEmpty then .zooE else listToAdd (.zooE :: rest)
    else
      let v := nums.foldl (foldNum Q.add) (Q.zero, false)
      let numE := if v.snd then Expr.fconst v.fst else Expr.const v.fst
      if rest.isEmpty then numE
      else if v.fst.isZero then listToAdd rest
      else listToAdd (rest ++ [numE])

def sMul (a b : Expr) : Expr :=
  let fs := mulFactors a ++ mulFactors b
  if fs.any (· = Expr.nanE) then .nanE
  else
    let hasZoo := fs.any (· = Expr.zooE)
    let nums := fs.filterMap numVal?
    let rest := fs.filter (fun e => (numVal? e).isNone && e ≠ .zooE)
    let v := nums.foldl (foldNum Q.mul) (Q.one, false)
    if hasZoo then
      if v.fst.isZero then .nanE
      else if rest.isEmpty then .zooE
      else listToMul (.zooE :: rest)
    else if v.fst.isZero then ci 0
    else
      let numE := if v.snd then Expr.fconst v.fst else Expr.const v.fst
      if rest.isEmpty then numE
      else if !v.snd && v.fst = Q.one then listToMul rest
      else listToMul (numE :: rest)

def sPowInt (b : Expr) (k : Int) : Expr :=
  if k = 0 then ci 1
  else if k = 1 then b
  else
    match b with
    | .nanE => .nanE
    | .zooE => if 0 < k then .zooE else ci 0
    | .const q =>
      if q.isZero then (if 0 < k then ci 0 else .zooE) else .const (q.powInt k)
    | .fconst q =>
      if q.isZero then (if 0 < k then ci 0 else .zooE)
      else .fconst (round53 (q.powInt k))
    | .pow b' m => .pow b' (m * k)
    | e => .pow e k

def sNeg (e : Expr) : Expr := sMul (ci (-1)) e

def sSub (a b : Expr) : Expr := sAdd a (sNeg b)

def sDiv (a b : Expr) : Expr := sMul a (sPowInt b (-1))

/-- Detect that a normal form is q * pi for a rational q (including 0). -/
def piMultiple? : NF → Option Q
| [] => some Q.zero
| [(q, [(Expr.piE, 1)])] => some q
| _ => none

def sSin (e : Expr) : Expr :=
  match piMultiple? (toNF e) with
  | some q =>
    let r := q.mod2
    if r = Q.zero then ci 0
    else if r = Q.mk' 1 2 then ci 1
    else if r = Q.ofInt 1 then ci 0
    else if r = Q.mk' 3 2 then ci (-1)
    else .sinE e
  | none => .sinE e

def sCos (e : Expr) : Expr :=
  match piMultiple? (toNF e) with
  | some q =>
    let r := q.mod2
    if r = Q.zero then ci 1
    else if r = Q.mk' 1 2 then ci 0
    else if r = Q.ofInt 1 then ci (-1)
    else if r = Q.mk' 3 2 then ci 0
    else .cosE e
  | none => .cosE e

def sTan (e : Expr) : Expr :=
  match piMultiple? (toNF e) with
  | some q =>
    let r := q.mod1
    if r = Q.zero then ci 0
    else if r = Q.mk' 1 2 then .zooE
    else .tanE e
  | none => .tanE e

/-- sqrt with sympy's evaluation on the perfect squares the engine
produces; other arguments stay symbolic. -/
def sSqrt (e : Expr) : Expr :=
  match toNF e with
  | [] => ci 0
  | [(q, [])] =>
    if q = Q.one then ci 1
    else if q = Q.ofInt 4 then ci 2
    else if q = Q.ofInt 9 then ci 3
    else .sqrtE e
  | _ => .sqrtE e

/-- Symbolic derivative, modelling sp.diff; results are built with the
smart constructors, mirroring sympy's evaluated derivatives. -/
def diffE (v : String) : Expr → Expr
| .const _ | .fconst _ | .piE | .zooE | .nanE => ci 0
| .sym w => if w = v then ci 1 else ci 0
| .add a b => sAdd (diffE v a) (diffE v b)
| .mul a b => sAdd (sMul (diffE v a) b) (sMul a (diffE v b))
| .pow a k => sMul (sMul (ci k) (sPowInt a (k - 1))) (diffE v a)
| .sqrtE a => sMul (sDiv (ci 1) (sMul (ci 2) (.sqrtE a))) (diffE v a)
| .sinE a => sMul (sCos a) (diffE v a)
| .cosE a => sMul (sNeg (sSin a)) (diffE v a)
| .tanE a => sMul (sAdd (sPowInt (sTan a) 2) (ci 1)) (diffE v a)
| .integralU _ _ _ _ => ci 0

/-! The definite integrator, modelling sp.integrate on the fragment the
engine feeds it: term by term, each monomial either free of the
integration variable, a pure power of it, or a sin/cos power over the
full period [0, 2*pi].  Anything else stays an unevaluated integral
node, as sympy returns an Integral object it cannot resolve.  (sympy
resolves more integrals than this model; the claims below only exercise
integrands inside the fragment, and the structural claims do not depend
on integral values.) -/

/-- Integral over [0, 2*pi] of sin^sa * cos^ca. -/
def trigPeriodNF (sa ca : Nat) : Option NF :=
  match sa, ca with
  | 1, 0 => some pZero
  | 0, 1 => some pZero
  | 1, 1 => some pZero
  | 2, 0 => some [(Q.one, [(Expr.piE, 1)])]
  | 0, 2 => some [(Q.one, [(Expr.piE, 1)])]
  | 2, 1 => some pZero
  | 1, 2 => some pZero
  | 2, 2 => some [(Q.mk' 1 4, [(Expr.piE, 1)])]
  | _, _ => none

/-- Recognize a dependent monomial part as sin(v)^sa * cos(v)^ca. -/
def trigExps? (v : String) : Mono → Option (Nat × Nat)
| [] => some (0, 0)
| (Expr.sinE (Expr.sym w), k) :: rest =>
  if w = v ∧ 0 < k then
    (trigExps? v rest).bind (fun p => if p.fst = 0 then some (k.toNat, p.snd) else none)
  else none
| (Expr.cosE (Expr.sym w), k) :: rest =>
  if w = v ∧ 0 < k then
    (trigExps? v rest).bind (fun p => if p.snd = 0 then some (p.fst, k.toNat) else none)
  else none
| _ => none

/-- Definite integral of one monomial. -/
def integraMono (v : String) (plo phi : NF) (fullPeriod : Bool) (q : Q) (m : Mono) :
    Option NF :=
  let dep := m.filter (fun p => occursSym v p.fst)
  let indep := m.filter (fun p => !occursSym v p.fst)
  match dep with
  | [] => some (pScale q indep (pSub phi plo))
  | [(Expr.sym w, k)] =>
    if w = v ∧ 0 ≤ k then
      let k1 := k.toNat + 1
      some (pScale (q.mul (Q.mk' 1 (k1 : Int))) indep
        (pSub (pPowNat phi k1) (pPowNat plo k1)))
    else
      if fullPeriod then
        match trigExps? v dep with
        | some p => (trigPeriodNF p.fst p.snd).map (fun w' => pScale q indep w')
        | none => none
      else none
  | _ =>
    if fullPeriod then
      match trigExps? v dep with
      | some p => (trigPeriodNF p.fst p.snd).map (fun w' => pScale q indep w')
      | none => none
    else none

/-- Model of sp.integrate(e, (v, lo, hi)). -/
def integrateDef (e : Expr) (v : String) (lo hi : Expr) : Expr :=
  let pe := toNF e
  let plo := toNF lo
  let phi := toNF hi
  let fullPeriod := plo = pZero && phi = [(Q.ofInt 2, [(Expr.piE, 1)])]
  match pe.mapM (fun t => integraMono v plo phi fullPeriod t.fst t.snd) with
  | some ps => polyToExpr (ps.foldl pAdd pZero)
  | none => .integralU e v lo hi

/-- Model of sp.integrate(e, (v1, a1, b1), (v2, a2, b2)) (sequential). -/
def integrateDef2 (e : Expr) (v1 : String) (a1 b1 : Expr) (v2 : String) (a2 b2 : Expr) : Expr :=
  integrateDef (integrateDef e v1 a1 b1) v2 a2 b2

/-! A small expression interpreter modelling sp.sympify on the grammar
the program's inputs use: integer literals, identifiers (pi and the
function names sin/cos/tan/sqrt are resolved as in sympy's global
namespace, every other name becomes a symbol), + - * / ** with the usual
precedences, unary sign, parentheses.  Exponents are integer literals
(optionally negative), which covers every string the program feeds to
sympy.  Expressions are built with the smart constructors, mirroring
sympy's automatic evaluation while parsing.  A string outside the
grammar yields none, modelling a raised SympifyError. -/

inductive Tok where
| num : Nat → Tok
| ident : String → Tok
| plus | minus | star | slash | dstar | lp | rp
deriving DecidableEq, Repr

def isDigitC (c : Char) : Bool := 48 ≤ c.toNat && c.toNat ≤ 57

def isAlphaC (c : Char) : Bool :=
  (97 ≤ c.toNat && c.toNat ≤ 122) || (65 ≤ c.toNat && c.toNat ≤ 90) || c = '_'

def isAlnumC (c : Char) : Bool := isAlphaC c || isDigitC c

def valDigits (cs : List Char) : Nat :=
  cs.foldl (fun a c => a * 10 + (c.toNat - 48)) 0

def tokenizeF : Nat → List Char → Option (List Tok)
| 0, [] => some []
| 0, _ => none
| fuel + 1, cs =>
  match cs with
  | [] => some []
  | c :: rest =>
    if c = ' ' then tokenizeF fuel rest
    else if isDigitC c then
      let ds := (c :: rest).takeWhile isDigitC
      let rs := (c :: rest).dropWhile isDigitC
      (tokenizeF fuel rs).map (fun ts => Tok.num (valDigits ds) :: ts)
    else if isAlphaC c then
      let ds := (c :: rest).takeWhile isAlnumC
      let rs := (c :: rest).dropWhile isAlnumC
      (tokenizeF fuel rs).map (fun ts => Tok.ident (String.mk ds) :: ts)
    else if c = '+' then (tokenizeF fuel rest).map (Tok.plus :: ·)
    else if c = '-' then (tokenizeF fuel rest).map (Tok.minus :: ·)
    else if c = '*' then
      match rest with
      | '*' :: rest' => (tokenizeF fuel rest').map (Tok.dstar :: ·)
      | _ => (tokenizeF fuel rest).map (Tok.star :: ·)
    else if c = '/' then (tokenizeF fuel rest).map (Tok.slash :: ·)
    else if c = '(' then (tokenizeF fuel rest).map (Tok.lp :: ·)
    else if c = ')' then (tokenizeF fuel rest).map (Tok.rp :: ·)
    else none

def tokenize (s : String) : Option (List Tok) := tokenizeF (s.data.length + 1) s.data

/-- Resolve an identifier as sympy's namespace does. -/
def identExpr (s : String) (arg : Option Expr) : Option Expr :=
  match arg with
  | some a =>
    if s = "sin" then some (sSin a)
    else if s = "cos" then some (sCos a)
    else if s = "tan" then some (sTan a)
    else if s = "sqrt" then some (sSqrt a)
    else none
  | none =>
    if s = "pi" then some Expr.piE
    else if s ∈ ["sin", "cos", "tan", "sqrt"] then none
    else some (Expr.sym s)

mutual

def parseSum : Nat → List Tok → Option (Expr × List Tok)
| 0, _ => none
| fuel + 1, ts =>
  match parseTerm fuel ts with
  | none => none
  | some (e, rest) => parseSumRest fuel e rest

def parseSumRest : Nat → Expr → List Tok → Option (Expr × List Tok)
| 0, _, _ => none
| fuel + 1, acc, ts =>
  match ts with
  | Tok.plus :: rest =>
    match parseTerm fuel rest with
    | none => none
    | some (e, rest') => parseSumRest fuel (sAdd acc e) rest'
  | Tok.minus :: rest =>
    match parseTerm fuel rest with
    | none => none
    | some (e, rest') => parseSumRest fuel (sSub acc e) rest'
  | _ => some (acc, ts)

def parseTerm : Nat → List Tok → Option (Expr × List Tok)
| 0, _ => none
| fuel + 1, ts =>
  match parseFactor fuel ts with
  | none => none
  | some (e, rest) => parseTermRest fuel e rest

def parseTermRest : Nat → Expr → List Tok → Option (Expr × List Tok)
| 0, _, _ => none
| fuel + 1, acc, ts =>
  match ts with
  | Tok.star :: rest =>
    match parseFactor fuel rest with
    | none => none
    | some (e, rest') => parseTermRest fuel (sMul acc e) rest'
  | Tok.slash :: rest =>
    match parseFactor fuel rest with
    | none => none
    | some (e, rest') => parseTermRest fuel (sDiv acc e) rest'
  | _ => some (acc, ts)

def parseFactor : Nat → List Tok → Option (Expr × List Tok)
| 0, _ => none
| fuel + 1, ts =>
  match ts with
  | Tok.minus :: rest => (parseFactor fuel rest).map (fun p => (sNeg p.fst, p.snd))
  | Tok.plus :: rest => parseFactor fuel rest
  | _ => parsePow fuel ts

def parsePow : Nat → List Tok → Option (Expr × List Tok)
| 0, _ => none
| fuel + 1, ts =>
  match parseAtom fuel ts with
  | none => none
  | some (e, rest) =>
    match rest with
    | Tok.dstar :: Tok.num k :: rest' => some (sPowInt e (k : Int), rest')
    | Tok.dstar :: Tok.minus :: Tok.num k :: rest' => some (sPowInt e (-(k : Int)), rest')
    | Tok.dstar :: _ => none
    | _ => some (e, rest)

def parseAtom : Nat → List Tok → Option (Expr × List Tok)
| 0, _ => none
| fuel + 1, ts =>
  match ts with
  | Tok.num k :: rest => some (ci (k : Int), rest)
  | Tok.ident s :: Tok.lp :: rest =>
    match parseSum fuel rest with
    | some (a, Tok.rp :: rest') =>
      match identExpr s (some a) with
      | some e => some (e, rest')
      | none => none
    | _ => none
  | Tok.ident s :: rest =>
    match identExpr s none with
    | some e => some (e, rest)
    | none => none
  | Tok.lp :: rest =>
    match parseSum fuel rest with
    | some (e, Tok.rp :: rest') => some (e, rest')
    | _ => none
  | _ => none

end

/-- Model of sp.sympify on a user string (none = raised SympifyError). -/
def sympify (s : String) : Option Expr :=
  match tokenize s with
  | none => none
  | some ts =>
    match parseSum (2 * ts.length + 4) ts with
    | some (e, []) => some e
    | _ => none

/-! Trace and result records.  The step trace of the Python code is a
list of narration strings; it is modelled as a list of structured trace
elements, one per append site, carrying the interpolated expressions.
The long per-region interpretation blocks produced by the
_explicacion_* helpers (pure presentation text) are collapsed into a
single trace element carrying the same data. -/

inductive Paso where
| line : String → Paso
| lineE : String → List Expr → Paso
| lineS : String → String → Paso
| valorNumerico : Expr → Paso
| sinValorNumerico : Paso
| notaJacobianoCil : Paso
| notaJacobianoEsf : Paso
| multiplicaJacobiano : Expr → Expr → Paso
| pasoIntegrar : Nat → String → Paso
| intPaso : String → String → Expr → String → Paso
| verificado : Paso
| diferencia : Expr → Paso
| verificadoStokes : Paso
| noCoinciden : Paso
| explicacion : String → List Expr → Paso
deriving DecidableEq, Repr

/-- Outcome of resolver_integral_triple: the returned dict (result plus
step trace), or a raised exception escaping the function (the function
has no error-dict return path). -/
inductive TripleOut where
| ok : Expr → List Paso → TripleOut
| raised : String → TripleOut
deriving DecidableEq, Repr

/-- Outcome of a theorem evaluator: the returned record with its two
result slots, step trace and theorem-statement lines; or a returned
error dict; or a raised exception (uncaught sympify/int failure on a
region parameter). -/
inductive EvalOut where
| ok : Expr → Expr → List Paso → List String → EvalOut
| errDict : String → EvalOut
| raised : String → EvalOut
deriving DecidableEq, Repr

/-- The recognized coordinate-system tags (calculadora.py lines 65-85). -/
def sistemasReconocidos : List String :=
  ["rectangular", "rectangulares", "cilindrica", "cilindricas", "esferica", "esfericas"]

/-- Jacobian-already-applied heuristic for cylindrical coordinates
(calculadora.py lines 95-108): after stripping spaces and lowering,
the text equals "r", starts with r followed by an operator, contains
"r*z" or "r*theta", or is one of four two-symbol combinations. -/
def detectaJacobianoCil (integrando : String) : Bool :=
  let il := limpiar integrando
  (il = ['r'])
  || startsWithAny il [['r', '+'], ['r', '-'], ['r', '*'], ['r', '/'], ['r', '*', '*']]
  || containsSub il ['r', '*', 'z']
  || containsSub il "r*theta".data
  || (il ∈ ["r+z".data, "r-z".data, "r+theta".data, "r-theta".data])

/-- Spherical full-Jacobian detection (calculadora.py lines 117-123). -/
def detectaJacobianoEsfCompleto (il : List Char) : Bool :=
  containsSub il "rho**2*sin(phi)".data
  || containsSub il "r**2*sin(phi)".data
  || containsSub il "ρ²*sin(φ)".data
  || (il = "rho**2".data)
  || (il = "r**2".data)

/-- Spherical partial-Jacobian detection (calculadora.py lines 126-129). -/
def detectaJacobianoEsfParcial (il : List Char) : Bool :=
  (containsSub il "rho**2*".data && containsSub il "sin(phi)".data)
  || (containsSub il "r**2*".data && containsSub il "sin(phi)".data)

def detectaJacobianoEsf (integrando : String) : Bool :=
  let il := limpiar integrando
  detectaJacobianoEsfCompleto il || detectaJacobianoEsfParcial il

/-- The sequential integration loop (calculadora.py lines 144-157):
for each variable in order, look its limits up (a missing key raises,
as Python dict indexing does), parse them, integrate, simplify, trace. -/
def bucleIntegracion : Expr → List String → List (String × String × String) → Nat →
    Option (Expr × List Paso)
| e, [], _, _ => some (e, [])
| e, v :: rest, lims, i =>
  match lims.find? (fun t => t.fst = v) with
  | none => none
  | some (_, aS, bS) =>
    match sympify aS, sympify bS with
    | some aE, some bE =>
      let e2 := simplifyE (integrateDef e v aE bE)
      match bucleIntegracion e2 rest lims (i + 1) with
      | some (ef, ps) =>
        some (ef,
          [Paso.pasoIntegrar i v, Paso.intPaso aS bS (simplifyE e) v,
           Paso.lineE "Resultado parcial" [e2]] ++ ps)
      | none => none
    | _, _ => none

/-- Body of the solver after the coordinate-system dispatch
(calculadora.py lines 88-173).  Note the faithful porting of the
Jacobian block: in the cylindrical branch the flag aplicar_jacobiano is
set but never consulted — when the heuristic does not fire, no
multiplication by the Jacobian happens; only the spherical branch has
an else-arm that multiplies. -/
def cuerpoTriple (integrando : String) (variablesOrden : List String)
    (limites : List (String × String × String)) (sistema : String)
    (jacobiano : Expr) (cabecera : List Paso) : TripleOut :=
  match sympify integrando with
  | none => .raised "SympifyError: integrando invalido"
  | some expr0 =>
    let pasos0 := cabecera ++ [Paso.lineS "Integrando inicial" integrando]
    let paso1 :=
      if sistema ∈ ["cilindrica", "cilindricas"] then
        if detectaJacobianoCil integrando then
          (expr0, [Paso.notaJacobianoCil, Paso.lineE "Integrando final" [expr0]])
        else
          (expr0, ([] : List Paso))
      else if sistema ∈ ["esferica", "esfericas"] then
        if detectaJacobianoEsf integrando then
          (expr0, [Paso.notaJacobianoEsf, Paso.lineE "Integrando final" [expr0]])
        else
          (sMul expr0 jacobiano,
           [Paso.multiplicaJacobiano jacobiano (simplifyE (sMul expr0 jacobiano))])
      else (expr0, ([] : List Paso))
    match bucleIntegracion paso1.fst variablesOrden limites 1 with
    | none => .raised "Error en los limites de integracion"
    | some (exprF, pasosL) =>
      let pasosFin :=
        [Paso.lineE "RESULTADO FINAL" [exprF]] ++
        (if hasNonNumeric exprF then [Paso.sinValorNumerico]
         else [Paso.valorNumerico exprF])
      .ok exprF (pasos0 ++ paso1.snd ++ pasosL ++ pasosFin)

/-- Embedding of resolver_integral_triple (calculadora.py lines 53-173).
An unrecognized coordinate system raises ValueError (line 85); there is
no error-dict return path in this function. -/
def resolver_integral_triple (integrando : String) (variablesOrden : List String)
    (limites : List (String × String × String)) (sistema_coordenadas : String) : TripleOut :=
  if sistema_coordenadas ∈ ["rectangular", "rectangulares"] then
    cuerpoTriple integrando variablesOrden limites sistema_coordenadas (ci 1)
      [Paso.line "=== INTEGRAL TRIPLE - RECTANGULARES (X,Y,Z) ===",
       Paso.line "Formula: integral triple de f(x,y,z) dx dy dz"]
  else if sistema_coordenadas ∈ ["cilindrica", "cilindricas"] then
    cuerpoTriple integrando variablesOrden limites sistema_coordenadas (Expr.sym "r")
      [Paso.line "=== INTEGRAL TRIPLE - CILINDRICAS (R,THETA,Z) ===",
       Paso.line "Formula: integral triple de f(r,theta,z) por r dr dtheta dz"]
  else if sistema_coordenadas ∈ ["esferica", "esfericas"] then
    cuerpoTriple integrando variablesOrden limites sistema_coordenadas
      (sMul (sPowInt (Expr.sym "rho") 2) (sSin (Expr.sym "phi")))
      [Paso.line "=== INTEGRAL TRIPLE - ESFERICAS (RHO,THETA,PHI) ===",
       Paso.line "Formula: integral triple de f(rho,theta,phi) por rho cuadrado por sin(phi)"]
  else
    .raised "Sistema de coordenadas no reconocido. Use rectangular, cilindrica o esferica."

/-! Accessors used to state the claims. -/

def TripleOut.resultado? : TripleOut → Option Expr
| .ok r _ => some r
| .raised _ => none

def TripleOut.pasos? : TripleOut → Option (List Paso)
| .ok _ ps => some ps
| .raised _ => none

def TripleOut.esRaised : TripleOut → Bool
| .raised _ => true
| .ok _ _ => false

def EvalOut.slot1? : EvalOut → Option Expr
| .ok a _ _ _ => some a
| _ => none

def EvalOut.slot2? : EvalOut → Option Expr
| .ok _ b _ _ => some b
| _ => none

def EvalOut.pasos? : EvalOut → Option (List Paso)
| .ok _ _ ps _ => some ps
| _ => none

def EvalOut.esOk : EvalOut → Bool
| .ok _ _ _ _ => true
| _ => false

def EvalOut.esErrDict : EvalOut → Bool
| .errDict _ => true
| _ => false

/-- Python dict .get with default (parametros_region.get(k, d)). -/
def getParam (ps : List (String × String)) (k d : String) : String :=
  match ps.find? (fun p => p.fst = k) with
  | some p => p.snd
  | none => d

/-- Parse a region parameter with sp.sympify; a failure there is NOT
caught by the evaluators (only P/Q parsing is inside try), so it
surfaces as a raised exception. -/
def conParam (ps : List (String × String)) (k d : String) (f : Expr → EvalOut) : EvalOut :=
  match sympify (getParam ps k d) with
  | some e => f e
  | none => .raised "SympifyError en parametro de region"

/-- Embedding of _verificar_green (calculadora.py lines 900-913): append
the verification lines; if simplify(doble - linea) == 0 append the
check-passed line, otherwise append the literal difference; return the
record with both slots unaltered. -/
def verificar_green (doble linea : Expr) (pasos : List Paso) (info : List String) : EvalOut :=
  let pasos1 := pasos ++
    [Paso.line "",
     Paso.line "VERIFICACION DEL TEOREMA DE GREEN:",
     Paso.lineE "Integral doble" [doble],
     Paso.lineE "Integral de linea" [linea]]
  let pasos2 :=
    if toNF (sSub doble linea) = pZero then pasos1 ++ [Paso.verificado]
    else pasos1 ++ [Paso.diferencia (simplifyE (sSub doble linea))]
  .ok doble linea pasos2 info

def symX : Expr := .sym "x"

def symY : Expr := .sym "y"

def symR : Expr := .sym "r"

def symTheta : Expr := .sym "theta"

def symT : Expr := .sym "t"

def dosPi : Expr := sMul (ci 2) .piE

/-- Green, region disco (calculadora.py lines 450-498). -/
def greenDisco (P Qe rot : Expr) (ps : List (String × String))
    (pasos0 : List Paso) (info : List String) : EvalOut :=
  conParam ps "R" "1" fun R =>
  conParam ps "centro_x" "0" fun cx =>
  conParam ps "centro_y" "0" fun cy =>
  let pasos1 := pasos0 ++
    [Paso.lineE "Region: disco de radio R y centro" [R, cx, cy],
     Paso.line "",
     Paso.line "CALCULO DE LA INTEGRAL DOBLE:",
     Paso.lineE "Integral doble del rotacional sobre D" [rot]]
  let doble :=
    if isConstantE rot then
      let area_disco := sMul .piE (sPowInt R 2)
      (sMul rot area_disco,
       [Paso.lineE "Rotacional constante: resultado = rotacional por area" [rot, area_disco],
        Paso.lineE "Resultado" [sMul rot area_disco]])
    else
      let sust := [("x", sAdd cx (sMul symR (sCos symTheta))),
                   ("y", sAdd cy (sMul symR (sSin symTheta)))]
      let integrando := simplifyE (sMul (subsE sust rot) symR)
      let rd := integrateDef2 integrando "r" (ci 0) R "theta" (ci 0) dosPi
      (rd, [Paso.lineE "Integrando en coordenadas polares" [integrando],
            Paso.lineE "Integral doble sobre la region D" [rd]])
  let x_c := sAdd cx (sMul R (sCos symT))
  let y_c := sAdd cy (sMul R (sSin symT))
  let dx_dt := diffE "t" x_c
  let dy_dt := diffE "t" y_c
  let P_param := subsE [("x", x_c), ("y", y_c)] P
  let Q_param := subsE [("x", x_c), ("y", y_c)] Qe
  let integrando_linea := sAdd (sMul P_param dx_dt) (sMul Q_param dy_dt)
  let linea := simplifyE (integrateDef integrando_linea "t" (ci 0) dosPi)
  let pasos2 := pasos1 ++ doble.snd ++
    [Paso.line "",
     Paso.line "CALCULO DE LA INTEGRAL DE LINEA:",
     Paso.lineE "Integral de linea" [linea],
     Paso.explicacion "disco" [R, doble.fst, linea, rot]]
  verificar_green doble.fst linea pasos2 info

/-- Green, region corona (calculadora.py lines 500-543). -/
def greenCorona (P Qe rot : Expr) (ps : List (String × String))
    (pasos0 : List Paso) (info : List String) : EvalOut :=
  conParam ps "R_int" "1" fun Rint =>
  conParam ps "R_ext" "2" fun Rext =>
  conParam ps "centro_x" "0" fun cx =>
  conParam ps "centro_y" "0" fun cy =>
  let sust := [("x", sAdd cx (sMul symR (sCos symTheta))),
               ("y", sAdd cy (sMul symR (sSin symTheta)))]
  let integrando := sMul (subsE sust rot) symR
  let doble := integrateDef2 integrando "r" Rint Rext "theta" (ci 0) dosPi
  let x_ext := sAdd cx (sMul Rext (sCos symT))
  let y_ext := sAdd cy (sMul Rext (sSin symT))
  let linea_ext := integrateDef
    (sAdd (sMul (subsE [("x", x_ext), ("y", y_ext)] P) (diffE "t" x_ext))
          (sMul (subsE [("x", x_ext), ("y", y_ext)] Qe) (diffE "t" y_ext)))
    "t" (ci 0) dosPi
  let x_int := sAdd cx (sMul Rint (sCos symT))
  let y_int := sAdd cy (sMul Rint (sSin symT))
  let linea_int := integrateDef
    (sAdd (sMul (subsE [("x", x_int), ("y", y_int)] P) (diffE "t" x_int))
          (sMul (subsE [("x", x_int), ("y", y_int)] Qe) (diffE "t" y_int)))
    "t" dosPi (ci 0)
  let linea := simplifyE (sAdd linea_ext linea_int)
  let pasos1 := pasos0 ++
    [Paso.lineE "Region: corona circular" [Rint, Rext, cx, cy],
     Paso.lineE "Integral doble" [doble],
     Paso.lineE "Integral de linea" [linea],
     Paso.explicacion "corona" [Rint, Rext, doble, linea, rot]]
  verificar_green doble linea pasos1 info

/-- Green, region rectangulo (calculadora.py lines 545-580). -/
def greenRectangulo (P Qe rot : Expr) (ps : List (String × String))
    (pasos0 : List Paso) (info : List String) : EvalOut :=
  conParam ps "a" "1" fun a =>
  conParam ps "b" "1" fun b =>
  conParam ps "x0" "0" fun x0 =>
  conParam ps "y0" "0" fun y0 =>
  let doble := integrateDef2 rot "x" x0 (sAdd x0 a) "y" y0 (sAdd y0 b)
  let int1 := integrateDef (subsE [("x", symT), ("y", y0)] P) "t" x0 (sAdd x0 a)
  let int2 := integrateDef (subsE [("x", sAdd x0 a), ("y", symT)] Qe) "t" y0 (sAdd y0 b)
  let int3 := integrateDef (subsE [("x", symT), ("y", sAdd y0 b)] P) "t" (sAdd x0 a) x0
  let int4 := integrateDef (subsE [("x", x0), ("y", symT)] Qe) "t" (sAdd y0 b) y0
  let linea := simplifyE (sAdd (sAdd (sAdd int1 int2) int3) int4)
  let pasos1 := pasos0 ++
    [Paso.lineE "Region: rectangulo" [a, b, x0, y0],
     Paso.lineE "Integral doble" [doble],
     Paso.lineE "Integral de linea" [linea],
     Paso.explicacion "rectangulo" [a, b, doble, linea, rot]]
  verificar_green doble linea pasos1 info

/-- Green, region elipse (calculadora.py lines 582-616). -/
def greenElipse (P Qe rot : Expr) (ps : List (String × String))
    (pasos0 : List Paso) (info : List String) : EvalOut :=
  conParam ps "a" "2" fun a =>
  conParam ps "b" "1" fun b =>
  conParam ps "centro_x" "0" fun cx =>
  conParam ps "centro_y" "0" fun cy =>
  let sust := [("x", sAdd cx (sMul (sMul a symR) (sCos symTheta))),
               ("y", sAdd cy (sMul (sMul b symR) (sSin symTheta)))]
  let jacobiano := sMul (sMul a b) symR
  let integrando := sMul (subsE sust rot) jacobiano
  let doble := integrateDef2 integrando "r" (ci 0) (ci 1) "theta" (ci 0) dosPi
  let x_el := sAdd cx (sMul a (sCos symT))
  let y_el := sAdd cy (sMul b (sSin symT))
  let integrando_linea :=
    sAdd (sMul (subsE [("x", x_el), ("y", y_el)] P) (diffE "t" x_el))
         (sMul (subsE [("x", x_el), ("y", y_el)] Qe) (diffE "t" y_el))
  let linea := simplifyE (integrateDef integrando_linea "t" (ci 0) dosPi)
  let pasos1 := pasos0 ++
    [Paso.lineE "Region: elipse" [a, b, cx, cy],
     Paso.lineE "Integral doble" [doble],
     Paso.lineE "Integral de linea" [linea],
     Paso.explicacion "elipse" [a, b, doble, linea, rot]]
  verificar_green doble linea pasos1 info

/-- Green, region triangulo (calculadora.py lines 618-654). -/
def greenTriangulo (P Qe rot : Expr) (ps : List (String × String))
    (pasos0 : List Paso) (info : List String) : EvalOut :=
  conParam ps "base" "2" fun base =>
  conParam ps "altura" "3" fun altura =>
  conParam ps "x0" "0" fun x0 =>
  conParam ps "y0" "0" fun y0 =>
  let hipSup := sAdd y0 (sMul altura (sSub (ci 1) (sDiv (sSub symX x0) base)))
  let doble := integrateDef2 rot "x" x0 (sAdd x0 base) "y" y0 hipSup
  let int1 := integrateDef (subsE [("x", symT), ("y", y0)] P) "t" x0 (sAdd x0 base)
  let x_hip := sAdd x0 (sMul base (sSub (ci 1) symT))
  let y_hip := sAdd y0 (sMul altura symT)
  let int2 := integrateDef
    (sAdd (sMul (subsE [("x", x_hip), ("y", y_hip)] P) (diffE "t" x_hip))
          (sMul (subsE [("x", x_hip), ("y", y_hip)] Qe) (diffE "t" y_hip)))
    "t" (ci 0) (ci 1)
  let int3 := integrateDef (subsE [("x", x0), ("y", symT)] Qe) "t" (sAdd y0 altura) y0
  let linea := simplifyE (sAdd (sAdd int1 int2) int3)
  let pasos1 := pasos0 ++
    [Paso.lineE "Region: triangulo" [base, altura, x0, y0],
     Paso.lineE "Integral doble" [doble],
     Paso.lineE "Integral de linea" [linea],
     Paso.explicacion "triangulo" [base, altura, doble, linea, rot]]
  verificar_green doble linea pasos1 info

/-- Green, region semicirculo (calculadora.py lines 656-709). -/
def greenSemicirculo (P Qe rot : Expr) (ps : List (String × String))
    (pasos0 : List Paso) (info : List String) : EvalOut :=
  conParam ps "R" "2" fun R =>
  let tipo := getParam ps "tipo" "superior"
  conParam ps "centro_x" "0" fun cx =>
  conParam ps "centro_y" "0" fun cy =>
  let sust := [("x", sAdd cx (sMul symR (sCos symTheta))),
               ("y", sAdd cy (sMul symR (sSin symTheta)))]
  let integrando := sMul (subsE sust rot) symR
  let doble :=
    if tipo = "superior" then
      integrateDef2 integrando "r" (ci 0) R "theta" (ci 0) .piE
    else
      integrateDef2 integrando "r" (ci 0) R "theta" .piE dosPi
  let tMin := if tipo = "superior" then (ci 0) else Expr.piE
  let tMax := if tipo = "superior" then Expr.piE else dosPi
  let x_arco := sAdd cx (sMul R (sCos symT))
  let y_arco := sAdd cy (sMul R (sSin symT))
  let linea_arco := integrateDef
    (sAdd (sMul (subsE [("x", x_arco), ("y", y_arco)] P) (diffE "t" x_arco))
          (sMul (subsE [("x", x_arco), ("y", y_arco)] Qe) (diffE "t" y_arco)))
    "t" tMin tMax
  let linea_diam :=
    if tipo = "superior" then
      integrateDef (subsE [("x", symT), ("y", cy)] P) "t" (sAdd cx R) (sSub cx R)
    else
      integrateDef (subsE [("x", symT), ("y", cy)] P) "t" (sSub cx R) (sAdd cx R)
  let linea := simplifyE (sAdd linea_arco linea_diam)
  let pasos1 := pasos0 ++
    [Paso.lineS "Region: semicirculo de tipo" tipo,
     Paso.lineE "Integral doble" [doble],
     Paso.lineE "Integral de linea" [linea],
     Paso.explicacion "semicirculo" [R, doble, linea, rot]]
  verificar_green doble linea pasos1 info

/-- Green, region entre_curvas (calculadora.py lines 711-813).  The
curve strings are parsed inside their own try (error dict on failure);
the staged integrals are inside try as well, but the modelled
integrator never raises (it returns an unevaluated node instead, as
sympy usually does). -/
def greenEntreCurvas (P Qe rot : Expr) (ps : List (String × String))
    (pasos0 : List Paso) (info : List String) : EvalOut :=
  conParam ps "x_min" "0" fun xmin =>
  conParam ps "x_max" "2" fun xmax =>
  match sympify (getParam ps "f1" "x**2"), sympify (getParam ps "f2" "4") with
  | some f1, some f2 =>
    let integral_y := integrateDef rot "y" f1 f2
    let doble := integrateDef integral_y "x" xmin xmax
    let y1 := subsE [("x", symT)] f1
    let dy1 := subsE [("x", symT)] (diffE "x" f1)
    let int1 := integrateDef
      (sAdd (sMul (subsE [("x", symT), ("y", y1)] P) (ci 1))
            (sMul (subsE [("x", symT), ("y", y1)] Qe) dy1))
      "t" xmin xmax
    let int2 := integrateDef
      (sAdd (sMul (subsE [("x", xmax), ("y", symT)] P) (ci 0))
            (sMul (subsE [("x", xmax), ("y", symT)] Qe) (ci 1)))
      "t" (subsE [("x", xmax)] f1) (subsE [("x", xmax)] f2)
    let y3 := subsE [("x", symT)] f2
    let dy3 := subsE [("x", symT)] (diffE "x" f2)
    let int3 := integrateDef
      (sAdd (sMul (subsE [("x", symT), ("y", y3)] P) (ci 1))
            (sMul (subsE [("x", symT), ("y", y3)] Qe) dy3))
      "t" xmax xmin
    let int4 := integrateDef
      (sAdd (sMul (subsE [("x", xmin), ("y", symT)] P) (ci 0))
            (sMul (subsE [("x", xmin), ("y", symT)] Qe) (ci 1)))
      "t" (subsE [("x", xmin)] f2) (subsE [("x", xmin)] f1)
    let linea := simplifyE (sAdd (sAdd (sAdd int1 int2) int3) int4)
    let pasos1 := pasos0 ++
      [Paso.lineS "Region: entre las curvas"
         (getParam ps "f1" "x**2" ++ " y " ++ getParam ps "f2" "4"),
       Paso.lineE "Integral respecto a y" [integral_y],
       Paso.lineE "Integral doble FINAL" [doble],
       Paso.lineE "Integral de linea TOTAL" [linea],
       Paso.explicacion "entre_curvas" [doble, linea, rot]]
    verificar_green doble linea pasos1 info
  | _, _ => .errDict "Error analizando las curvas"

/-- Green, region sector_polar (calculadora.py lines 815-857). -/
def greenSectorPolar (P Qe rot : Expr) (ps : List (String × String))
    (pasos0 : List Paso) (info : List String) : EvalOut :=
  conParam ps "R" "2" fun R =>
  conParam ps "theta_min" "0" fun tmin =>
  conParam ps "theta_max" "pi/2" fun tmax =>
  let sust := [("x", sMul symR (sCos symTheta)), ("y", sMul symR (sSin symTheta))]
  let integrando := sMul (subsE sust rot) symR
  let doble := integrateDef2 integrando "r" (ci 0) R "theta" tmin tmax
  let x_arco := sMul R (sCos symT)
  let y_arco := sMul R (sSin symT)
  let linea_arco := integrateDef
    (sAdd (sMul (subsE [("x", x_arco), ("y", y_arco)] P) (diffE "t" x_arco))
          (sMul (subsE [("x", x_arco), ("y", y_arco)] Qe) (diffE "t" y_arco)))
    "t" tmin tmax
  let x_r1 := sMul symT (sCos tmin)
  let y_r1 := sMul symT (sSin tmin)
  let linea_rad1 := integrateDef
    (sAdd (sMul (subsE [("x", x_r1), ("y", y_r1)] P) (sCos tmin))
          (sMul (subsE [("x", x_r1), ("y", y_r1)] Qe) (sSin tmin)))
    "t" R (ci 0)
  let x_r2 := sMul symT (sCos tmax)
  let y_r2 := sMul symT (sSin tmax)
  let linea_rad2 := integrateDef
    (sAdd (sMul (subsE [("x", x_r2), ("y", y_r2)] P) (sCos tmax))
          (sMul (subsE [("x", x_r2), ("y", y_r2)] Qe) (sSin tmax)))
    "t" (ci 0) R
  let linea := simplifyE (sAdd (sAdd linea_arco linea_rad1) linea_rad2)
  let pasos1 := pasos0 ++
    [Paso.lineE "Region: sector polar" [R, tmin, tmax],
     Paso.lineE "Integral doble" [doble],
     Paso.lineE "Integral de linea" [linea],
     Paso.explicacion "sector_polar" [R, tmin, tmax, doble, linea, rot]]
  verificar_green doble linea pasos1 info

/-- Green, region poligono (calculadora.py lines 859-895).  Note: no
validation of lados happens here; the area formula is evaluated for
whatever integer arrives, and only the double integral is computed, its
value being returned in both result slots. -/
def greenPoligono (_P _Qe rot : Expr) (ps : List (String × String))
    (pasos0 : List Paso) (info : List String) : EvalOut :=
  match pyInt? (getParam ps "lados" "5") with
  | none => .raised "ValueError en int(lados)"
  | some lados =>
    conParam ps "radio" "2" fun radio =>
    conParam ps "centro_x" "0" fun cx =>
    conParam ps "centro_y" "0" fun cy =>
    let area_poligono :=
      sDiv (sMul (ci lados)
              (sPowInt (sMul (sMul (ci 2) radio) (sSin (sDiv .piE (ci lados)))) 2))
           (sMul (ci 4) (sTan (sDiv .piE (ci lados))))
    let doble :=
      if isConstantE rot then
        (sMul rot area_poligono,
         [Paso.lineE "Rotacional constante: integral doble = rotacional por area"
            [rot, area_poligono]])
      else
        let rotacional_medio := subsE [("x", cx), ("y", cy)] rot
        (sMul rotacional_medio area_poligono,
         [Paso.line "Rotacional no constante - usando valor medio aproximado",
          Paso.lineE "Aproximacion con el rotacional en el centro" [rotacional_medio]])
    let pasos1 := pasos0 ++
      [Paso.lineE "Region: poligono regular" [ci lados, radio, cx, cy]] ++
      doble.snd ++
      [Paso.line "Nota: Para poligonos, se muestra solo la integral doble",
       Paso.explicacion "poligono" [ci lados, radio, doble.fst, doble.fst, rot]]
    .ok doble.fst doble.fst pasos1 info

/-- Embedding of aplicar_green (calculadora.py lines 400-898). -/
def aplicar_green (P_str Q_str : String) (region : String)
    (parametros_region : List (String × String)) : EvalOut :=
  match sympify P_str, sympify Q_str with
  | some P, some Qe =>
    let info := ["TEOREMA DE GREEN",
      "Formula: integral de linea sobre C de P dx + Q dy = integral doble sobre D de dQ/dx - dP/dy",
      "C: curva cerrada que bordea la region D"]
    let dQdx := diffE "x" Qe
    let dPdy := diffE "y" P
    let rotacional_z := simplifyE (sSub dQdx dPdy)
    let pasos0 : List Paso :=
      [Paso.lineE "Campo vectorial F = (P, Q)" [P, Qe],
       Paso.line "",
       Paso.line "CALCULO DE LAS DERIVADAS PARCIALES:",
       Paso.lineE "P(x,y)" [P],
       Paso.lineE "Q(x,y)" [Qe],
       Paso.lineE "dQ/dx" [dQdx],
       Paso.lineE "dP/dy" [dPdy],
       Paso.lineE "Rotacional = dQ/dx - dP/dy" [rotacional_z],
       Paso.line ""]
    if region = "disco" then greenDisco P Qe rotacional_z parametros_region pasos0 info
    else if region = "corona" then greenCorona P Qe rotacional_z parametros_region pasos0 info
    else if region = "rectangulo" then greenRectangulo P Qe rotacional_z parametros_region pasos0 info
    else if region = "elipse" then greenElipse P Qe rotacional_z parametros_region pasos0 info
    else if region = "triangulo" then greenTriangulo P Qe rotacional_z parametros_region pasos0 info
    else if region = "semicirculo" then greenSemicirculo P Qe rotacional_z parametros_region pasos0 info
    else if region = "entre_curvas" then greenEntreCurvas P Qe rotacional_z parametros_region pasos0 info
    else if region = "sector_polar" then greenSectorPolar P Qe rotacional_z parametros_region pasos0 info
    else if region = "poligono" then greenPoligono P Qe rotacional_z parametros_region pasos0 info
    else .errDict "Region no soportada para el Teorema de Green."
  | _, _ => .errDict "Error analizando P o Q"

def symRho : Expr := .sym "rho"

def symPhi : Expr := .sym "phi"

def symZs : Expr := .sym "zs"

def symZvar : Expr := .sym "z_var"

/-- Divergence, region esfera (calculadora.py lines 959-1017).  The
Python source computes the sphere volume as (4/3) * sp.pi * R**3, where
4/3 is Python float division: the coefficient is the binary64 value
fl43, and the later multiplication by the divergence is sympy Float
arithmetic (modelled with 53-bit rounding by the smart constructors). -/
def divEsfera (divF : Expr) (ps : List (String × String))
    (pasos0 : List Paso) (info : List String) : EvalOut :=
  conParam ps "R" "1" fun R =>
  let cuerpo :=
    if isConstantE divF then
      let volumen_esfera := sMul (sMul (.fconst fl43) .piE) (sPowInt R 3)
      (sMul divF volumen_esfera,
       [Paso.lineE "Divergencia constante: resultado = divergencia por volumen de la esfera"
          [divF, volumen_esfera]])
    else
      let sust := [("x", sMul (sMul symRho (sSin symPhi)) (sCos symTheta)),
                   ("y", sMul (sMul symRho (sSin symPhi)) (sSin symTheta)),
                   ("z", sMul symRho (sCos symPhi))]
      let integrando := simplifyE (sMul (subsE sust divF) (sMul (sPowInt symRho 2) (sSin symPhi)))
      let integral_theta := integrateDef integrando "theta" (ci 0) dosPi
      let integral_phi := integrateDef integral_theta "phi" (ci 0) .piE
      let res := integrateDef integral_phi "rho" (ci 0) R
      (res,
       [Paso.lineE "Integrando en coordenadas esfericas" [integrando],
        Paso.lineE "Integral respecto a theta" [integral_theta],
        Paso.lineE "Integral respecto a phi" [integral_phi],
        Paso.lineE "Integral respecto a rho" [res]])
  let pasos1 := pasos0 ++
    [Paso.lineE "Region: esfera de radio R" [R],
     Paso.line "",
     Paso.line "CALCULO DE LA INTEGRAL TRIPLE:"] ++ cuerpo.snd ++
    [Paso.line "",
     Paso.line "INTERPRETACION FISICA:",
     Paso.lineE "El flujo neto a traves de la superficie esferica es" [cuerpo.fst]]
  .ok divF cuerpo.fst pasos1 info

/-- Divergence, region cilindro (calculadora.py lines 1019-1065); note
the radius parameter is read under the key a. -/
def divCilindro (divF : Expr) (ps : List (String × String))
    (pasos0 : List Paso) (info : List String) : EvalOut :=
  conParam ps "a" "1" fun a =>
  conParam ps "h" "1" fun h =>
  let cuerpo :=
    if isConstantE divF then
      let volumen_cilindro := sMul (sMul .piE (sPowInt a 2)) h
      (sMul divF volumen_cilindro,
       [Paso.lineE "Divergencia constante: resultado = divergencia por volumen del cilindro"
          [divF, volumen_cilindro]])
    else
      let sust := [("x", sMul symR (sCos symTheta)), ("y", sMul symR (sSin symTheta)),
                   ("z", symZs)]
      let integrando := simplifyE (sMul (subsE sust divF) symR)
      let integral_z := integrateDef integrando "zs" (ci 0) h
      let integral_theta := integrateDef integral_z "theta" (ci 0) dosPi
      let res := integrateDef integral_theta "r" (ci 0) a
      (res,
       [Paso.lineE "Integrando en coordenadas cilindricas" [integrando],
        Paso.lineE "Integral respecto a z" [integral_z],
        Paso.lineE "Integral respecto a theta" [integral_theta],
        Paso.lineE "Integral respecto a r" [res]])
  let pasos1 := pasos0 ++
    [Paso.lineE "Region: cilindro de radio a y altura h" [a, h]] ++ cuerpo.snd
  .ok divF cuerpo.fst pasos1 info

/-- Divergence, region cubo (calculadora.py lines 1067-1093). -/
def divCubo (divF : Expr) (ps : List (String × String))
    (pasos0 : List Paso) (info : List String) : EvalOut :=
  conParam ps "a" "1" fun a =>
  conParam ps "b" "1" fun b =>
  conParam ps "c" "1" fun c =>
  let integral_z := integrateDef divF "z" (sDiv (sNeg c) (ci 2)) (sDiv c (ci 2))
  let integral_y := integrateDef integral_z "y" (sDiv (sNeg b) (ci 2)) (sDiv b (ci 2))
  let res := integrateDef integral_y "x" (sDiv (sNeg a) (ci 2)) (sDiv a (ci 2))
  let pasos1 := pasos0 ++
    [Paso.lineE "Region: cubo de dimensiones a, b, c" [a, b, c],
     Paso.line "",
     Paso.line "CALCULO DE LA INTEGRAL TRIPLE:",
     Paso.lineE "Integral respecto a z" [integral_z],
     Paso.lineE "Integral respecto a y" [integral_y],
     Paso.lineE "Integral respecto a x" [res]]
  .ok divF res pasos1 info

/-- Divergence, region elipsoide (calculadora.py lines 1095-1136). -/
def divElipsoide (divF : Expr) (ps : List (String × String))
    (pasos0 : List Paso) (info : List String) : EvalOut :=
  conParam ps "a" "1" fun a =>
  conParam ps "b" "1" fun b =>
  conParam ps "c" "1" fun c =>
  let sust := [("x", sMul (sMul a (sMul symRho (sSin symPhi))) (sCos symTheta)),
               ("y", sMul (sMul b (sMul symRho (sSin symPhi))) (sSin symTheta)),
               ("z", sMul c (sMul symRho (sCos symPhi)))]
  let jacobiano := sMul (sMul (sMul a b) c) (sMul (sPowInt symRho 2) (sSin symPhi))
  let integrando := simplifyE (sMul (subsE sust divF) jacobiano)
  let integral_theta := integrateDef integrando "theta" (ci 0) dosPi
  let integral_phi := integrateDef integral_theta "phi" (ci 0) .piE
  let res := integrateDef integral_phi "rho" (ci 0) (ci 1)
  let pasos1 := pasos0 ++
    [Paso.lineE "Region: elipsoide de semiejes a, b, c" [a, b, c],
     Paso.lineE "Integrando en coordenadas elipsoidales" [integrando],
     Paso.lineE "Integral respecto a theta" [integral_theta],
     Paso.lineE "Integral respecto a phi" [integral_phi],
     Paso.lineE "Integral respecto a rho" [res]]
  .ok divF res pasos1 info

/-- Divergence, region cono (calculadora.py lines 1138-1174). -/
def divCono (divF : Expr) (ps : List (String × String))
    (pasos0 : List Paso) (info : List String) : EvalOut :=
  conParam ps "R" "1" fun R =>
  conParam ps "h" "1" fun h =>
  let sust := [("x", sMul symR (sCos symTheta)), ("y", sMul symR (sSin symTheta)),
               ("z", symZs)]
  let integrando := simplifyE (sMul (subsE sust divF) symR)
  let integral_r := integrateDef integrando "r" (ci 0)
    (sMul R (sSub (ci 1) (sDiv symZs h)))
  let integral_theta := integrateDef integral_r "theta" (ci 0) dosPi
  let res := integrateDef integral_theta "zs" (ci 0) h
  let pasos1 := pasos0 ++
    [Paso.lineE "Region: cono de radio R y altura h" [R, h],
     Paso.lineE "Integrando en coordenadas cilindricas" [integrando],
     Paso.lineE "Integral respecto a r" [integral_r],
     Paso.lineE "Integral respecto a theta" [integral_theta],
     Paso.lineE "Integral respecto a z" [res]]
  .ok divF res pasos1 info

/-- Divergence, region entre_superficies (calculadora.py lines 1176-1212). -/
def divEntreSuperficies (divF : Expr) (ps : List (String × String))
    (pasos0 : List Paso) (info : List String) : EvalOut :=
  conParam ps "R_int" "1" fun Rint =>
  conParam ps "R_ext" "2" fun Rext =>
  conParam ps "h" "1" fun h =>
  let sust := [("x", sMul symR (sCos symTheta)), ("y", sMul symR (sSin symTheta)),
               ("z", symZs)]
  let integrando := simplifyE (sMul (subsE sust divF) symR)
  let integral_z := integrateDef integrando "zs" (sDiv (sNeg h) (ci 2)) (sDiv h (ci 2))
  let integral_theta := integrateDef integral_z "theta" (ci 0) dosPi
  let res := integrateDef integral_theta "r" Rint Rext
  let pasos1 := pasos0 ++
    [Paso.lineE "Region: entre superficies cilindricas" [Rint, Rext, h],
     Paso.lineE "Integrando en coordenadas cilindricas" [integrando],
     Paso.lineE "Integral respecto a z" [integral_z],
     Paso.lineE "Integral respecto a theta" [integral_theta],
     Paso.lineE "Integral respecto a r" [res]]
  .ok divF res pasos1 info

/-- Embedding of aplicar_divergencia (calculadora.py lines 916-1215).
The returned record carries the divergence scalar and the single volume
integral; no surface integral is computed for any region. -/
def aplicar_divergencia (Fx_str Fy_str Fz_str : String) (region : String)
    (parametros_region : List (String × String)) : EvalOut :=
  match sympify Fx_str, sympify Fy_str, sympify Fz_str with
  | some Fx, some Fy, some Fz =>
    let info := ["TEOREMA DE LA DIVERGENCIA (TEOREMA DE GAUSS)",
      "Formula: integral de superficie de F punto dS = integral triple de div F dV"]
    let dFx_dx := diffE "x" Fx
    let dFy_dy := diffE "y" Fy
    let dFz_dz := diffE "z" Fz
    let divF := simplifyE (sAdd (sAdd dFx_dx dFy_dy) dFz_dz)
    let pasos0 : List Paso :=
      [Paso.lineE "Campo vectorial F" [Fx, Fy, Fz],
       Paso.line "",
       Paso.line "CALCULO DETALLADO DE LA DIVERGENCIA:",
       Paso.lineE "dFx/dx" [dFx_dx],
       Paso.lineE "dFy/dy" [dFy_dy],
       Paso.lineE "dFz/dz" [dFz_dz],
       Paso.lineE "Divergencia" [divF]]
    if region = "esfera" then divEsfera divF parametros_region pasos0 info
    else if region = "cilindro" then divCilindro divF parametros_region pasos0 info
    else if region = "cubo" then divCubo divF parametros_region pasos0 info
    else if region = "elipsoide" then divElipsoide divF parametros_region pasos0 info
    else if region = "cono" then divCono divF parametros_region pasos0 info
    else if region = "entre_superficies" then divEntreSuperficies divF parametros_region pasos0 info
    else .errDict "Region no soportada para el Teorema de la Divergencia."
  | _, _, _ => .errDict "Error analizando las componentes del campo"

/-- Stokes, surface disco (calculadora.py lines 1286-1366): surface
integral of the z-component of the curl plus an independently
parametrized boundary line integral, cross-checked. -/
def stokesDisco (Fx Fy Fz : Expr) (rotF : Expr × Expr × Expr)
    (ps : List (String × String)) (pasos0 : List Paso) (info : List String) : EvalOut :=
  conParam ps "R" "1" fun R =>
  let rotacional_z := simplifyE rotF.snd.snd
  let sust := [("x", sMul symR (sCos symTheta)), ("y", sMul symR (sSin symTheta)),
               ("z", ci 0)]
  let integrando := simplifyE (sMul (subsE sust rotacional_z) symR)
  let integral_theta := integrateDef integrando "theta" (ci 0) dosPi
  let res_superficie := integrateDef integral_theta "r" (ci 0) R
  let x_c := sMul R (sCos symT)
  let y_c := sMul R (sSin symT)
  let z_c := ci 0
  let dx_dt := diffE "t" x_c
  let dy_dt := diffE "t" y_c
  let dz_dt := diffE "t" z_c
  let sustC := [("x", x_c), ("y", y_c), ("z", z_c)]
  let integrando_linea :=
    sAdd (sAdd (sMul (subsE sustC Fx) dx_dt) (sMul (subsE sustC Fy) dy_dt))
         (sMul (subsE sustC Fz) dz_dt)
  let res_linea := simplifyE (integrateDef integrando_linea "t" (ci 0) dosPi)
  let pasos1 := pasos0 ++
    [Paso.lineE "Superficie: disco de radio R en z = 0, normal (0,0,1)" [R],
     Paso.lineE "Componente z del rotacional" [rotacional_z],
     Paso.lineE "Integrando (rot F) punto n dS" [integrando],
     Paso.lineE "Integral de superficie sobre S" [res_superficie],
     Paso.line "",
     Paso.line "CALCULO DE LA INTEGRAL DE LINEA:",
     Paso.lineE "Integral de linea" [res_linea],
     Paso.line "",
     Paso.line "VERIFICACION DEL TEOREMA DE STOKES:"] ++
    (if toNF (sSub res_superficie res_linea) = pZero then [Paso.verificadoStokes]
     else [Paso.noCoinciden])
  .ok res_superficie res_linea pasos1 info

/-- Stokes, surface plano (calculadora.py lines 1368-1408): only the
surface integral is computed and the result is returned in both slots. -/
def stokesPlano (rotF : Expr × Expr × Expr) (ps : List (String × String))
    (pasos0 : List Paso) (info : List String) : EvalOut :=
  conParam ps "a" "0" fun a =>
  conParam ps "b" "0" fun b =>
  conParam ps "c" "0" fun c =>
  conParam ps "R" "1" fun R =>
  let sust := [("x", sMul symR (sCos symTheta)), ("y", sMul symR (sSin symTheta)),
               ("z", sAdd (sAdd (sMul (sMul a symR) (sCos symTheta))
                                (sMul (sMul b symR) (sSin symTheta))) c)]
  let magnitud_normal := sSqrt (sAdd (sAdd (sPowInt a 2) (sPowInt b 2)) (ci 1))
  let normal_x := sDiv (sNeg a) magnitud_normal
  let normal_y := sDiv (sNeg b) magnitud_normal
  let normal_z := sDiv (ci 1) magnitud_normal
  let producto_punto :=
    sAdd (sAdd (sMul (subsE sust rotF.fst) normal_x)
               (sMul (subsE sust rotF.snd.fst) normal_y))
         (sMul (subsE sust rotF.snd.snd) normal_z)
  let dS := sMul magnitud_normal symR
  let integrando := simplifyE (sMul producto_punto dS)
  let res_superficie := integrateDef2 integrando "r" (ci 0) R "theta" (ci 0) dosPi
  let pasos1 := pasos0 ++
    [Paso.lineE "Superficie: plano z = a x + b y + c dentro de circulo de radio R" [a, b, c, R],
     Paso.lineE "Integrando (rot F) punto n dS" [integrando],
     Paso.lineE "Integral de superficie" [res_superficie]]
  .ok res_superficie res_superficie pasos1 info

/-- Stokes, surface paraboloide (calculadora.py lines 1410-1446):
surface integral only, duplicated into both slots. -/
def stokesParaboloide (rotF : Expr × Expr × Expr) (ps : List (String × String))
    (pasos0 : List Paso) (info : List String) : EvalOut :=
  conParam ps "a" "1" fun a =>
  conParam ps "R" "1" fun R =>
  let sust := [("x", sMul symR (sCos symTheta)), ("y", sMul symR (sSin symTheta)),
               ("z", sSub a (sPowInt symR 2))]
  let normal_x := sMul (sMul (ci 2) symR) (sCos symTheta)
  let normal_y := sMul (sMul (ci 2) symR) (sSin symTheta)
  let magnitud_normal := sSqrt (sAdd (sMul (ci 4) (sPowInt symR 2)) (ci 1))
  let producto_punto :=
    sDiv (sAdd (sAdd (sMul (subsE sust rotF.fst) normal_x)
                     (sMul (subsE sust rotF.snd.fst) normal_y))
               (sMul (subsE sust rotF.snd.snd) (ci 1)))
         magnitud_normal
  let dS := sMul magnitud_normal symR
  let integrando := simplifyE (sMul producto_punto dS)
  let res_superficie := integrateDef2 integrando "r" (ci 0) R "theta" (ci 0) dosPi
  let pasos1 := pasos0 ++
    [Paso.lineE "Superficie: paraboloide z = a - x2 - y2 hasta radio R" [a, R],
     Paso.lineE "Integrando (rot F) punto n dS" [integrando],
     Paso.lineE "Integral de superficie" [res_superficie]]
  .ok res_superficie res_superficie pasos1 info

/-- Stokes, surface cilindro (calculadora.py lines 1448-1483): lateral
surface integral only, duplicated into both slots. -/
def stokesCilindro (rotF : Expr × Expr × Expr) (ps : List (String × String))
    (pasos0 : List Paso) (info : List String) : EvalOut :=
  conParam ps "R" "1" fun R =>
  conParam ps "h" "1" fun h =>
  let sust := [("x", sMul R (sCos symTheta)), ("y", sMul R (sSin symTheta)),
               ("z", symZvar)]
  let normal_x := sCos symTheta
  let normal_y := sSin symTheta
  let producto_punto :=
    sAdd (sAdd (sMul (subsE sust rotF.fst) normal_x)
               (sMul (subsE sust rotF.snd.fst) normal_y))
         (sMul (subsE sust rotF.snd.snd) (ci 0))
  let dS := R
  let integrando := simplifyE (sMul producto_punto dS)
  let res_superficie := integrateDef2 integrando "theta" (ci 0) dosPi "z_var" (ci 0) h
  let pasos1 := pasos0 ++
    [Paso.lineE "Superficie: cilindro lateral de radio R y altura h" [R, h],
     Paso.lineE "Integrando (rot F) punto n dS" [integrando],
     Paso.lineE "Integral de superficie" [res_superficie]]
  .ok res_superficie res_superficie pasos1 info

/-- Embedding of aplicar_stokes (calculadora.py lines 1218-1486). -/
def aplicar_stokes (Fx_str Fy_str Fz_str : String) (superficie : String)
    (parametros_superficie : List (String × String)) : EvalOut :=
  match sympify Fx_str, sympify Fy_str, sympify Fz_str with
  | some Fx, some Fy, some Fz =>
    let info := ["TEOREMA DE STOKES",
      "Formula: integral de linea sobre C de F punto dr = integral de superficie de rot F punto dS"]
    let comp_x := simplifyE (sSub (diffE "y" Fz) (diffE "z" Fy))
    let comp_y := simplifyE (sSub (diffE "z" Fx) (diffE "x" Fz))
    let comp_z := simplifyE (sSub (diffE "x" Fy) (diffE "y" Fx))
    let rotF : Expr × Expr × Expr := (comp_x, comp_y, comp_z)
    let pasos0 : List Paso :=
      [Paso.lineE "Campo vectorial F" [Fx, Fy, Fz],
       Paso.line "",
       Paso.line "CALCULO DETALLADO DEL ROTACIONAL:",
       Paso.lineE "Componente x del rotacional" [comp_x],
       Paso.lineE "Componente y del rotacional" [comp_y],
       Paso.lineE "Componente z del rotacional" [comp_z]]
    if superficie = "disco" then
      stokesDisco Fx Fy Fz rotF parametros_superficie pasos0 info
    else if superficie = "plano" then
      stokesPlano rotF parametros_superficie pasos0 info
    else if superficie = "paraboloide" then
      stokesParaboloide rotF parametros_superficie pasos0 info
    else if superficie = "cilindro" then
      stokesCilindro rotF parametros_superficie pasos0 info
    else .errDict "Superficie no soportada. Use: disco, plano, paraboloide, cilindro"
  | _, _, _ => .errDict "Error analizando las componentes del campo"

/-- Embedding of the polygon-side validation in DialogoEntrada.aceptar
(calculadora.py lines 1709-1717): for region poligono, parametro1 is
converted with int(); a conversion failure or a value below 3 makes the
dialog reject the input (warn and return) before any evaluator runs. -/
def dialogoAceptaPoligonoLados (parametro1 : String) : Bool :=
  match pyInt? parametro1 with
  | none => false
  | some lados => decide (3 ≤ lados)


/-! Predicates and helper lemmas used by the claims. -/

/-- The step trace of a successful triple-integral call is non-empty. -/
def trazaNoVaciaT : TripleOut → Bool
| .ok _ ps => !ps.isEmpty
| .raised _ => true

/-- The step trace of a successful evaluator call is non-empty. -/
def trazaNoVaciaE : EvalOut → Bool
| .ok _ _ ps _ => !ps.isEmpty
| _ => true

/-- In a successful record the two result slots hold the same value. -/
def lineaIgualSuperficie : EvalOut → Bool
| .ok s l _ _ => decide (s = l)
| _ => true

/-- No Stokes verification marker appears in the trace. -/
def sinVerificacionStokes : EvalOut → Bool
| .ok _ _ ps _ =>
  !(decide (Paso.verificadoStokes ∈ ps)) && !(decide (Paso.noCoinciden ∈ ps))
| _ => true

theorem trazaVerificarGreen (d l : Expr) (p : List Paso) (i : List String) :
    trazaNoVaciaE (verificar_green d l p i) = true := by
  unfold verificar_green
  by_cases h : toNF (sSub d l) = pZero <;> simp [h, trazaNoVaciaE]

theorem trazaOkConsAppend (a b : Expr) (i : List String) (l1 l2 : List Paso) (x : Paso) :
    trazaNoVaciaE (.ok a b (l1 ++ x :: l2) i) = true := by
  cases l1 <;> rfl

theorem trazaGreenDisco (P Qe rot : Expr) (ps : List (String × String))
    (p0 : List Paso) (i : List String) :
    trazaNoVaciaE (greenDisco P Qe rot ps p0 i) = true := by
  unfold greenDisco conParam
  repeat' (split <;> try beta_reduce)
  all_goals first
  | exact trazaVerificarGreen _ _ _ _
  | rfl

theorem trazaGreenCorona (P Qe rot : Expr) (ps : List (String × String))
    (p0 : List Paso) (i : List String) :
    trazaNoVaciaE (greenCorona P Qe rot ps p0 i) = true := by
  unfold greenCorona conParam
  repeat' (split <;> try beta_reduce)
  all_goals first
  | exact trazaVerificarGreen _ _ _ _
  | rfl

theorem trazaGreenRectangulo (P Qe rot : Expr) (ps : List (String × String))
    (p0 : List Paso) (i : List String) :
    trazaNoVaciaE (greenRectangulo P Qe rot ps p0 i) = true := by
  unfold greenRectangulo conParam
  repeat' (split <;> try beta_reduce)
  all_goals first
  | exact trazaVerificarGreen _ _ _ _
  | rfl

theorem trazaGreenElipse (P Qe rot : Expr) (ps : List (String × String))
    (p0 : List Paso) (i : List String) :
    trazaNoVaciaE (greenElipse P Qe rot ps p0 i) = true := by
  unfold greenElipse conParam
  repeat' (split <;> try beta_reduce)
  all_goals first
  | exact trazaVerificarGreen _ _ _ _
  | rfl

theorem trazaGreenTriangulo (P Qe rot : Expr) (ps : List (String × String))
    (p0 : List Paso) (i : List String) :
    trazaNoVaciaE (greenTriangulo P Qe rot ps p0 i) = true := by
  unfold greenTriangulo conParam
  repeat' (split <;> try beta_reduce)
  all_goals first
  | exact trazaVerificarGreen _ _ _ _
  | rfl

theorem trazaGreenSemicirculo (P Qe rot : Expr) (ps : List (String × String))
    (p0 : List Paso) (i : List String) :
    trazaNoVaciaE (greenSemicirculo P Qe rot ps p0 i) = true := by
  unfold greenSemicirculo conParam
  repeat' (split <;> try beta_reduce)
  all_goals first
  | exact trazaVerificarGreen _ _ _ _
  | rfl

theorem trazaGreenEntreCurvas (P Qe rot : Expr) (ps : List (String × String))
    (p0 : List Paso) (i : List String) :
    trazaNoVaciaE (greenEntreCurvas P Qe rot ps p0 i) = true := by
  unfold greenEntreCurvas conParam
  repeat' (split <;> try beta_reduce)
  all_goals first
  | exact trazaVerificarGreen _ _ _ _
  | rfl

theorem trazaGreenSectorPolar (P Qe rot : Expr) (ps : List (String × String))
    (p0 : List Paso) (i : List String) :
    trazaNoVaciaE (greenSectorPolar P Qe rot ps p0 i) = true := by
  unfold greenSectorPolar conParam
  repeat' (split <;> try beta_reduce)
  all_goals first
  | exact trazaVerificarGreen _ _ _ _
  | rfl

theorem trazaGreenPoligono (P Qe rot : Expr) (ps : List (String × String))
    (p0 : List Paso) (i : List String) :
    trazaNoVaciaE (greenPoligono P Qe rot ps p0 i) = true := by
  unfold greenPoligono conParam
  repeat' (split <;> try beta_reduce)
  all_goals first
  | exact trazaOkConsAppend _ _ _ _ _ _
  | rfl

theorem trazaGreen (P_str Q_str region : String) (ps : List (String × String)) :
    trazaNoVaciaE (aplicar_green P_str Q_str region ps) = true := by
  unfold aplicar_green
  split
  case h_1 =>
    split
    · exact trazaGreenDisco _ _ _ _ _ _
    · split
      · exact trazaGreenCorona _ _ _ _ _ _
      · split
        · exact trazaGreenRectangulo _ _ _ _ _ _
        · split
          · exact trazaGreenElipse _ _ _ _ _ _
          · split
            · exact trazaGreenTriangulo _ _ _ _ _ _
            · split
              · exact trazaGreenSemicirculo _ _ _ _ _ _
              · split
                · exact trazaGreenEntreCurvas _ _ _ _ _ _
                · split
                  · exact trazaGreenSectorPolar _ _ _ _ _ _
                  · split
                    · exact trazaGreenPoligono _ _ _ _ _ _
                    · rfl
  all_goals rfl

theorem trazaDivEsfera (divF : Expr) (ps : List (String × String))
    (p0 : List Paso) (i : List String) :
    trazaNoVaciaE (divEsfera divF ps p0 i) = true := by
  unfold divEsfera conParam
  repeat' (split <;> try beta_reduce)
  all_goals first
  | exact trazaOkConsAppend _ _ _ _ _ _
  | rfl

theorem trazaDivCilindro (divF : Expr) (ps : List (String × String))
    (p0 : List Paso) (i : List String) :
    trazaNoVaciaE (divCilindro divF ps p0 i) = true := by
  unfold divCilindro conParam
  repeat' (split <;> try beta_reduce)
  all_goals first
  | exact trazaOkConsAppend _ _ _ _ _ _
  | rfl

theorem trazaDivCubo (divF : Expr) (ps : List (String × String))
    (p0 : List Paso) (i : List String) :
    trazaNoVaciaE (divCubo divF ps p0 i) = true := by
  unfold divCubo conParam
  repeat' (split <;> try beta_reduce)
  all_goals first
  | exact trazaOkConsAppend _ _ _ _ _ _
  | rfl

theorem trazaDivElipsoide (divF : Expr) (ps : List (String × String))
    (p0 : List Paso) (i : List String) :
    trazaNoVaciaE (divElipsoide divF ps p0 i) = true := by
  unfold divElipsoide conParam
  repeat' (split <;> try beta_reduce)
  all_goals first
  | exact trazaOkConsAppend _ _ _ _ _ _
  | rfl

theorem trazaDivCono (divF : Expr) (ps : List (String × String))
    (p0 : List Paso) (i : List String) :
    trazaNoVaciaE (divCono divF ps p0 i) = true := by
  unfold divCono conParam
  repeat' (split <;> try beta_reduce)
  all_goals first
  | exact trazaOkConsAppend _ _ _ _ _ _
  | rfl

theorem trazaDivEntreSuperficies (divF : Expr) (ps : List (String × String))
    (p0 : List Paso) (i : List String) :
    trazaNoVaciaE (divEntreSuperficies divF ps p0 i) = true := by
  unfold divEntreSuperficies conParam
  repeat' (split <;> try beta_reduce)
  all_goals first
  | exact trazaOkConsAppend _ _ _ _ _ _
  | rfl

theorem trazaDivergencia (FxS FyS FzS region : String) (ps : List (String × String)) :
    trazaNoVaciaE (aplicar_divergencia FxS FyS FzS region ps) = true := by
  unfold aplicar_divergencia
  split
  case h_1 =>
    split
    · exact trazaDivEsfera _ _ _ _
    · split
      · exact trazaDivCilindro _ _ _ _
      · split
        · exact trazaDivCubo _ _ _ _
        · split
          · exact trazaDivElipsoide _ _ _ _
          · split
            · exact trazaDivCono _ _ _ _
            · split
              · exact trazaDivEntreSuperficies _ _ _ _
              · rfl
  all_goals rfl

theorem trazaStokesDisco (Fx Fy Fz : Expr) (rotF : Expr × Expr × Expr)
    (ps : List (String × String)) (p0 : List Paso) (i : List String) :
    trazaNoVaciaE (stokesDisco Fx Fy Fz rotF ps p0 i) = true := by
  unfold stokesDisco conParam
  repeat' (split <;> try simp only [])
  all_goals first
  | exact trazaOkConsAppend _ _ _ _ _ _
  | rfl

theorem trazaStokesPlano (rotF : Expr × Expr × Expr)
    (ps : List (String × String)) (p0 : List Paso) (i : List String) :
    trazaNoVaciaE (stokesPlano rotF ps p0 i) = true := by
  unfold stokesPlano conParam
  repeat' (split <;> try beta_reduce)
  all_goals first
  | exact trazaOkConsAppend _ _ _ _ _ _
  | rfl

theorem trazaStokesParaboloide (rotF : Expr × Expr × Expr)
    (ps : List (String × String)) (p0 : List Paso) (i : List String) :
    trazaNoVaciaE (stokesParaboloide rotF ps p0 i) = true := by
  unfold stokesParaboloide conParam
  repeat' (split <;> try beta_reduce)
  all_goals first
  | exact trazaOkConsAppend _ _ _ _ _ _
  | rfl

theorem trazaStokesCilindro (rotF : Expr × Expr × Expr)
    (ps : List (String × String)) (p0 : List Paso) (i : List String) :
    trazaNoVaciaE (stokesCilindro rotF ps p0 i) = true := by
  unfold stokesCilindro conParam
  repeat' (split <;> try beta_reduce)
  all_goals first
  | exact trazaOkConsAppend _ _ _ _ _ _
  | rfl

theorem trazaStokes (FxS FyS FzS superficie : String) (ps : List (String × String)) :
    trazaNoVaciaE (aplicar_stokes FxS FyS FzS superficie ps) = true := by
  unfold aplicar_stokes
  split
  case h_1 =>
    split
    · exact trazaStokesDisco _ _ _ _ _ _ _
    · split
      · exact trazaStokesPlano _ _ _ _
      · split
        · exact trazaStokesParaboloide _ _ _ _
        · split
          · exact trazaStokesCilindro _ _ _ _
          · rfl
  all_goals rfl

theorem trazaTriple (integrando : String) (vs : List String)
    (lims : List (String × String × String)) (sistema : String) :
    trazaNoVaciaT (resolver_integral_triple integrando vs lims sistema) = true := by
  unfold resolver_integral_triple cuerpoTriple
  repeat' (split <;> try simp only [])
  all_goals rfl

/-- Is this trace element the multiply-by-Jacobian step? -/
def esPasoJacobiano : Paso → Bool
| .multiplicaJacobiano _ _ => true
| _ => false

/-- Limits used to evaluate the cylindrical solver at the claim C1
inputs: r from 0 to 1, theta from 0 to 2*pi, z from 0 to 1. -/
def limitesC1 : List (String × String × String) :=
  [("r", "0", "1"), ("theta", "0", "2*pi"), ("z", "0", "1")]

set_option maxRecDepth 1000000 in
set_option maxHeartbeats 2000000 in
/-- C1: in resolver_integral_triple with cylindrical coordinates, for
integrand text "r" the Jacobian-already-applied heuristic fires and the
integrand actually integrated is r (over the unit cylinder the result
is pi).  For integrand text "1" the heuristic does not fire, but -
contrary to the claim - the solver does NOT multiply by the Jacobian r:
the flag aplicar_jacobiano is set and never consulted, no Jacobian note
or multiplication appears in the trace, and the integrand actually
integrated is 1 (the result over the unit cylinder is 2*pi, where the
claimed multiplication by r would give pi). -/
theorem C1_jacobiano_cilindrico :
    detectaJacobianoCil "r" = true ∧
    ((resolver_integral_triple "r" ["r", "theta", "z"] limitesC1 "cilindrica").resultado?).map
      (normEq .piE) = some true ∧
    ((resolver_integral_triple "r" ["r", "theta", "z"] limitesC1 "cilindrica").pasos?).map
      (fun ps => decide (Paso.notaJacobianoCil ∈ ps)) = some true ∧
    detectaJacobianoCil "1" = false ∧
    ((resolver_integral_triple "1" ["r", "theta", "z"] limitesC1 "cilindrica").resultado?).map
      (normEq (sMul (ci 2) .piE)) = some true ∧
    ((resolver_integral_triple "1" ["r", "theta", "z"] limitesC1 "cilindrica").resultado?).map
      (normEq .piE) = some false ∧
    ((resolver_integral_triple "1" ["r", "theta", "z"] limitesC1 "cilindrica").pasos?).map
      (fun ps => decide (Paso.notaJacobianoCil ∈ ps)) = some false ∧
    ((resolver_integral_triple "1" ["r", "theta", "z"] limitesC1 "cilindrica").pasos?).map
      (fun ps => ps.all (fun p => !esPasoJacobiano p)) = some true := by
  decide

/-- The value 2*pi*R**2 with symbolic radius R, claimed for both Green
slots on the disk. -/
def objetivoC2 : Expr := sMul (ci 2) (sMul .piE (sPowInt (.sym "R") 2))

set_option maxRecDepth 1000000 in
set_option maxHeartbeats 2000000 in
/-- C2: aplicar_green with P = -y, Q = x on the disk of symbolic radius
R centered at (0,0): the computed rotational is 2 (it appears in the
trace), both returned slots equal 2*pi*R**2, the verification marks the
theorem as verified, and for R = 1 both slots equal 2*pi. -/
theorem C2_green_disco_rotacion :
    ((aplicar_green "-y" "x" "disco"
        [("R", "R"), ("centro_x", "0"), ("centro_y", "0")]).pasos?).map
      (fun ps => decide (Paso.lineE "Rotacional = dQ/dx - dP/dy" [ci 2] ∈ ps)) = some true ∧
    ((aplicar_green "-y" "x" "disco"
        [("R", "R"), ("centro_x", "0"), ("centro_y", "0")]).slot1?).map
      (normEq objetivoC2) = some true ∧
    ((aplicar_green "-y" "x" "disco"
        [("R", "R"), ("centro_x", "0"), ("centro_y", "0")]).slot2?).map
      (normEq objetivoC2) = some true ∧
    ((aplicar_green "-y" "x" "disco"
        [("R", "R"), ("centro_x", "0"), ("centro_y", "0")]).pasos?).map
      (fun ps => decide (Paso.verificado ∈ ps)) = some true ∧
    ((aplicar_green "-y" "x" "disco"
        [("R", "1"), ("centro_x", "0"), ("centro_y", "0")]).slot1?).map
      (normEq (sMul (ci 2) .piE)) = some true ∧
    ((aplicar_green "-y" "x" "disco"
        [("R", "1"), ("centro_x", "0"), ("centro_y", "0")]).slot2?).map
      (normEq (sMul (ci 2) .piE)) = some true := by
  decide

set_option maxRecDepth 1000000 in
set_option maxHeartbeats 2000000 in
/-- C3: aplicar_divergencia with F = (x, y, z) on the sphere of
symbolic radius R: the divergence slot is 3, the volume slot equals
4*pi*R**3 (computed through the constant-divergence shortcut
3 * (4/3)*pi*R**3, whose Python-float coefficient rounds exactly to 4
in binary64), and for R = 1 the volume slot equals 4*pi. -/
theorem C3_divergencia_esfera :
    (aplicar_divergencia "x" "y" "z" "esfera" [("R", "R")]).slot1? = some (ci 3) ∧
    ((aplicar_divergencia "x" "y" "z" "esfera" [("R", "R")]).slot2?).map
      (normEq (sMul (ci 4) (sMul .piE (sPowInt (.sym "R") 3)))) = some true ∧
    ((aplicar_divergencia "x" "y" "z" "esfera" [("R", "1")]).slot2?).map
      (normEq (sMul (ci 4) .piE)) = some true := by
  decide

set_option maxRecDepth 1000000 in
/-- C4 counterexample: for the unrecognized coordinate-system tag
"polar" the solver does not return an error data value - it raises
(ValueError at calculadora.py line 85), refuting the claim that every
failure path of this engine function returns a data value. -/
theorem C4_contraejemplo :
    (resolver_integral_triple "1" ["x", "y", "z"]
      [("x", "0", "1"), ("y", "0", "1"), ("z", "0", "1")] "polar").esRaised = true := by
  decide

/-- C4 amended: for every input whose coordinate-system tag is outside
the six recognized spellings, resolver_integral_triple raises a
ValueError that escapes the function (instead of returning an error
data value). -/
theorem C4_sistema_desconocido (integrando : String) (vs : List String)
    (lims : List (String × String × String)) (sistema : String)
    (h : sistema ∉ sistemasReconocidos) :
    resolver_integral_triple integrando vs lims sistema =
      .raised "Sistema de coordenadas no reconocido. Use rectangular, cilindrica o esferica." := by
  simp only [sistemasReconocidos, List.mem_cons, List.not_mem_nil, or_false, not_or] at h
  obtain ⟨h1, h2, h3, h4, h5, h6⟩ := h
  simp [resolver_integral_triple, List.mem_cons, h1, h2, h3, h4, h5, h6]

/-- C4 witness: the amended theorem applied at the concrete tag "polar". -/
theorem C4_testigo :
    "polar" ∉ sistemasReconocidos ∧
    resolver_integral_triple "0" [] [] "polar" =
      .raised "Sistema de coordenadas no reconocido. Use rectangular, cilindrica o esferica." :=
  ⟨by decide, C4_sistema_desconocido "0" [] [] "polar" (by decide)⟩

set_option maxRecDepth 1000000 in
set_option maxHeartbeats 2000000 in
/-- C5 counterexample: for F = (x, y, z) over the unit sphere the
record returned by aplicar_divergencia has slots 3 (the divergence
scalar) and 4*pi (the volume integral), which are not equal - refuting
the claim that the two result slots of the Divergence record equal each
other. -/
theorem C5_contraejemplo :
    (aplicar_divergencia "x" "y" "z" "esfera" [("R", "1")]).slot1? = some (ci 3) ∧
    ((aplicar_divergencia "x" "y" "z" "esfera" [("R", "1")]).slot2?).map
      (normEq (ci 3)) = some false := by
  decide

theorem slotDivEsfera (divF : Expr) (ps : List (String × String))
    (p0 : List Paso) (i : List String) :
    (divEsfera divF ps p0 i).slot1? = none ∨
    (divEsfera divF ps p0 i).slot1? = some divF := by
  unfold divEsfera conParam
  repeat' (split <;> try beta_reduce)
  all_goals simp [EvalOut.slot1?]

theorem slotDivCilindro (divF : Expr) (ps : List (String × String))
    (p0 : List Paso) (i : List String) :
    (divCilindro divF ps p0 i).slot1? = none ∨
    (divCilindro divF ps p0 i).slot1? = some divF := by
  unfold divCilindro conParam
  repeat' (split <;> try beta_reduce)
  all_goals simp [EvalOut.slot1?]

theorem slotDivCubo (divF : Expr) (ps : List (String × String))
    (p0 : List Paso) (i : List String) :
    (divCubo divF ps p0 i).slot1? = none ∨
    (divCubo divF ps p0 i).slot1? = some divF := by
  unfold divCubo conParam
  repeat' (split <;> try beta_reduce)
  all_goals simp [EvalOut.slot1?]

theorem slotDivElipsoide (divF : Expr) (ps : List (String × String))
    (p0 : List Paso) (i : List String) :
    (divElipsoide divF ps p0 i).slot1? = none ∨
    (divElipsoide divF ps p0 i).slot1? = some divF := by
  unfold divElipsoide conParam
  repeat' (split <;> try beta_reduce)
  all_goals simp [EvalOut.slot1?]

theorem slotDivCono (divF : Expr) (ps : List (String × String))
    (p0 : List Paso) (i : List String) :
    (divCono divF ps p0 i).slot1? = none ∨
    (divCono divF ps p0 i).slot1? = some divF := by
  unfold divCono conParam
  repeat' (split <;> try beta_reduce)
  all_goals simp [EvalOut.slot1?]

theorem slotDivEntreSuperficies (divF : Expr) (ps : List (String × String))
    (p0 : List Paso) (i : List String) :
    (divEntreSuperficies divF ps p0 i).slot1? = none ∨
    (divEntreSuperficies divF ps p0 i).slot1? = some divF := by
  unfold divEntreSuperficies conParam
  repeat' (split <;> try beta_reduce)
  all_goals simp [EvalOut.slot1?]


/-- C5 amended: for every field and every supported Divergence region
tag, whenever a record is returned its first slot is exactly the
divergence scalar of the parsed field (so the record carries only one
computed integral, in its second slot; there is no duplicated pair of
equal result slots and no boundary-surface integral). -/
theorem C5_un_solo_integral (fxS fyS fzS region : String) (ps : List (String × String))
    (hreg : region ∈ ["esfera", "cilindro", "cubo", "elipsoide", "cono", "entre_superficies"])
    (fx fy fz : Expr)
    (hfx : sympify fxS = some fx) (hfy : sympify fyS = some fy)
    (hfz : sympify fzS = some fz) :
    (aplicar_divergencia fxS fyS fzS region ps).slot1? = none ∨
    (aplicar_divergencia fxS fyS fzS region ps).slot1? =
      some (simplifyE (sAdd (sAdd (diffE "x" fx) (diffE "y" fy)) (diffE "z" fz))) := by
  fin_cases hreg
  · unfold aplicar_divergencia
    rw [hfx, hfy, hfz]
    try simp only []
    simp only [if_true, if_false, ite_true, ite_false]
    exact slotDivEsfera _ _ _ _
  · unfold aplicar_divergencia
    rw [hfx, hfy, hfz]
    try simp only []
    simp only [if_true, if_false, ite_true, ite_false]
    exact slotDivCilindro _ _ _ _
  · unfold aplicar_divergencia
    rw [hfx, hfy, hfz]
    try simp only []
    simp only [if_true, if_false, ite_true, ite_false]
    exact slotDivCubo _ _ _ _
  · unfold aplicar_divergencia
    rw [hfx, hfy, hfz]
    try simp only []
    simp only [if_true, if_false, ite_true, ite_false]
    exact slotDivElipsoide _ _ _ _
  · unfold aplicar_divergencia
    rw [hfx, hfy, hfz]
    try simp only []
    simp only [if_true, if_false, ite_true, ite_false]
    exact slotDivCono _ _ _ _
  · unfold aplicar_divergencia
    rw [hfx, hfy, hfz]
    try simp only []
    simp only [if_true, if_false, ite_true, ite_false]
    exact slotDivEntreSuperficies _ _ _ _

/-- C5 witness: the amended theorem applied at F = (x, y, z) over the
cube region. -/
theorem C5_testigo :
    ("cubo" ∈ ["esfera", "cilindro", "cubo", "elipsoide", "cono", "entre_superficies"]) ∧
    ((aplicar_divergencia "x" "y" "z" "cubo" []).slot1? = none ∨
     (aplicar_divergencia "x" "y" "z" "cubo" []).slot1? =
       some (simplifyE (sAdd (sAdd (diffE "x" (Expr.sym "x")) (diffE "y" (Expr.sym "y")))
         (diffE "z" (Expr.sym "z"))))) :=
  ⟨by decide,
   C5_un_solo_integral "x" "y" "z" "cubo" [] (by decide) (Expr.sym "x") (Expr.sym "y")
     (Expr.sym "z") (by decide) (by decide) (by decide)⟩

set_option maxRecDepth 1000000 in
set_option maxHeartbeats 2000000 in
/-- C6 counterexample: aplicar_green with region poligono and lados = 2
(below 3) does not return a validation-error value: the record is an
ok record and the symbolic computation ran (for P = -y, Q = x the
rotational 2 was computed and multiplied by the area value 0 obtained
from the division by tan(pi/2) = zoo). -/
theorem C6_contraejemplo :
    (aplicar_green "-y" "x" "poligono" [("lados", "2"), ("radio", "1")]).esOk = true ∧
    (aplicar_green "-y" "x" "poligono" [("lados", "2"), ("radio", "1")]).esErrDict = false ∧
    (aplicar_green "-y" "x" "poligono" [("lados", "2"), ("radio", "1")]).slot1? =
      some (ci 0) := by
  decide

/-- C6 amended: the lados-below-3 validation lives in the input dialog
(DialogoEntrada.aceptar), which rejects the request before any
evaluator runs; aplicar_green itself performs no such validation and
computes a record (see the counterexample). -/
theorem C6_validacion_en_dialogo (s : String) (n : Int)
    (hs : pyInt? s = some n) (hn : n < 3) :
    dialogoAceptaPoligonoLados s = false := by
  unfold dialogoAceptaPoligonoLados
  rw [hs]
  simp only [decide_eq_false_iff_not]
  omega

/-- C6 witness: the amended theorem applied at the string "2". -/
theorem C6_testigo :
    pyInt? "2" = some 2 ∧ (2 : Int) < 3 ∧ dialogoAceptaPoligonoLados "2" = false :=
  ⟨by decide, by decide, C6_validacion_en_dialogo "2" 2 (by decide) (by decide)⟩

/-- C7: for any pair of computed Green integrals, _verificar_green
returns the record with both slots unaltered (never an exception), its
trace extends the incoming trace, and it appends the verified marker
when simplify(doble - linea) is zero and otherwise the literal nonzero
residual. -/
theorem C7_verificacion_green (doble linea : Expr) (pasos : List Paso)
    (info : List String) :
    ∃ ps2, verificar_green doble linea pasos info = .ok doble linea ps2 info ∧
      List.IsPrefix pasos ps2 ∧
      (if toNF (sSub doble linea) = pZero then Paso.verificado ∈ ps2
       else Paso.diferencia (simplifyE (sSub doble linea)) ∈ ps2) := by
  unfold verificar_green
  by_cases h : toNF (sSub doble linea) = pZero
  · refine ⟨(pasos ++
        [Paso.line "", Paso.line "VERIFICACION DEL TEOREMA DE GREEN:",
         Paso.lineE "Integral doble" [doble], Paso.lineE "Integral de linea" [linea]]) ++
        [Paso.verificado], ?_, ?_, ?_⟩
    · simp [h]
    · rw [List.append_assoc]
      exact List.prefix_append _ _
    · simp [h]
  · refine ⟨(pasos ++
        [Paso.line "", Paso.line "VERIFICACION DEL TEOREMA DE GREEN:",
         Paso.lineE "Integral doble" [doble], Paso.lineE "Integral de linea" [linea]]) ++
        [Paso.diferencia (simplifyE (sSub doble linea))], ?_, ?_, ?_⟩
    · simp [h]
    · rw [List.append_assoc]
      exact List.prefix_append _ _
    · simp [h]

set_option maxRecDepth 1000000 in
/-- C8: the constant integrand 1 over the rectangular box given by
z in [0,3], y in [0,1], x in [0,2], in the order z, y, x, yields the
symbolic box volume 6, and the numeric-evaluation trace step reports
the same value. -/
theorem C8_caja_rectangular :
    (resolver_integral_triple "1" ["z", "y", "x"]
      [("z", "0", "3"), ("y", "0", "1"), ("x", "0", "2")] "rectangular").resultado? =
      some (ci 6) ∧
    ((resolver_integral_triple "1" ["z", "y", "x"]
      [("z", "0", "3"), ("y", "0", "1"), ("x", "0", "2")] "rectangular").pasos?).map
      (fun ps => decide (Paso.valorNumerico (ci 6) ∈ ps)) = some true := by
  decide

/-- C9: for every input, each embedded evaluator produces a non-empty
step trace whenever it returns a record, and re-running the same
evaluator on identical inputs returns an identical result (the
embeddings are pure functions, as the Python evaluators build all
state - symbols, expressions, the trace list - afresh per call). -/
theorem C9_traza_y_determinismo (integrando : String) (vs : List String)
    (lims : List (String × String × String)) (sistema P_str Q_str region : String)
    (psG : List (String × String)) (FxS FyS FzS superficie regionD : String)
    (psD psS : List (String × String)) :
    trazaNoVaciaT (resolver_integral_triple integrando vs lims sistema) = true ∧
    trazaNoVaciaE (aplicar_green P_str Q_str region psG) = true ∧
    trazaNoVaciaE (aplicar_divergencia FxS FyS FzS regionD psD) = true ∧
    trazaNoVaciaE (aplicar_stokes FxS FyS FzS superficie psS) = true ∧
    resolver_integral_triple integrando vs lims sistema =
      resolver_integral_triple integrando vs lims sistema ∧
    aplicar_green P_str Q_str region psG = aplicar_green P_str Q_str region psG ∧
    aplicar_divergencia FxS FyS FzS regionD psD =
      aplicar_divergencia FxS FyS FzS regionD psD ∧
    aplicar_stokes FxS FyS FzS superficie psS = aplicar_stokes FxS FyS FzS superficie psS :=
  ⟨trazaTriple integrando vs lims sistema,
   trazaGreen P_str Q_str region psG,
   trazaDivergencia FxS FyS FzS regionD psD,
   trazaStokes FxS FyS FzS superficie psS,
   rfl, rfl, rfl, rfl⟩

theorem dupStokesPlano (rotF : Expr × Expr × Expr) (ps : List (String × String))
    (p0 : List Paso) (i : List String)
    (h1 : Paso.verificadoStokes ∉ p0) (h2 : Paso.noCoinciden ∉ p0) :
    lineaIgualSuperficie (stokesPlano rotF ps p0 i) = true ∧
    sinVerificacionStokes (stokesPlano rotF ps p0 i) = true := by
  unfold stokesPlano conParam
  repeat' (split <;> try beta_reduce)
  all_goals
    refine ⟨by simp [lineaIgualSuperficie], by simp [sinVerificacionStokes, h1, h2]⟩

theorem dupStokesParaboloide (rotF : Expr × Expr × Expr) (ps : List (String × String))
    (p0 : List Paso) (i : List String)
    (h1 : Paso.verificadoStokes ∉ p0) (h2 : Paso.noCoinciden ∉ p0) :
    lineaIgualSuperficie (stokesParaboloide rotF ps p0 i) = true ∧
    sinVerificacionStokes (stokesParaboloide rotF ps p0 i) = true := by
  unfold stokesParaboloide conParam
  repeat' (split <;> try beta_reduce)
  all_goals
    refine ⟨by simp [lineaIgualSuperficie], by simp [sinVerificacionStokes, h1, h2]⟩

theorem dupStokesCilindro (rotF : Expr × Expr × Expr) (ps : List (String × String))
    (p0 : List Paso) (i : List String)
    (h1 : Paso.verificadoStokes ∉ p0) (h2 : Paso.noCoinciden ∉ p0) :
    lineaIgualSuperficie (stokesCilindro rotF ps p0 i) = true ∧
    sinVerificacionStokes (stokesCilindro rotF ps p0 i) = true := by
  unfold stokesCilindro conParam
  repeat' (split <;> try beta_reduce)
  all_goals
    refine ⟨by simp [lineaIgualSuperficie], by simp [sinVerificacionStokes, h1, h2]⟩

/-- C10: for every field and each of the Stokes surfaces plano,
paraboloide and cilindro, the returned record duplicates the surface
integral into the line slot (the two slots are the same value), and no
boundary line integral or verification is computed - the trace carries
no Stokes verification marker, so equal slots do not indicate a
verified theorem. -/
theorem C10_stokes_superficie_duplicada (FxS FyS FzS superficie : String)
    (ps : List (String × String))
    (h : superficie ∈ ["plano", "paraboloide", "cilindro"]) :
    lineaIgualSuperficie (aplicar_stokes FxS FyS FzS superficie ps) = true ∧
    sinVerificacionStokes (aplicar_stokes FxS FyS FzS superficie ps) = true := by
  fin_cases h
  · unfold aplicar_stokes
    split
    case h_1 =>
      try simp only []
      simp only [if_true, if_false, ite_true, ite_false]
      exact dupStokesPlano _ _ _ _ (by simp) (by simp)
    all_goals exact ⟨rfl, rfl⟩
  · unfold aplicar_stokes
    split
    case h_1 =>
      try simp only []
      simp only [if_true, if_false, ite_true, ite_false]
      exact dupStokesParaboloide _ _ _ _ (by simp) (by simp)
    all_goals exact ⟨rfl, rfl⟩
  · unfold aplicar_stokes
    split
    case h_1 =>
      try simp only []
      simp only [if_true, if_false, ite_true, ite_false]
      exact dupStokesCilindro _ _ _ _ (by simp) (by simp)
    all_goals exact ⟨rfl, rfl⟩

/-- C10 witness: the theorem applied at F = (x, y, z) on the plano
surface with default parameters. -/
theorem C10_testigo :
    ("plano" ∈ ["plano", "paraboloide", "cilindro"]) ∧
    lineaIgualSuperficie (aplicar_stokes "x" "y" "z" "plano" []) = true ∧
    sinVerificacionStokes (aplicar_stokes "x" "y" "z" "plano" []) = true :=
  ⟨by decide,
   (C10_stokes_superficie_duplicada "x" "y" "z" "plano" [] (by decide)).1,
   (C10_stokes_superficie_duplicada "x" "y" "z" "plano" [] (by decide)).2⟩
